import Mathlib

/-!
Verification development for the pysecspy SecuritySpy client
(`pysecspy/secspy.py`, `pysecspy/data.py`, `pysecspy/const.py`).

The Python code is shallowly embedded: Python dict values become `PVal`,
dicts with string keys become association lists (`PDict`), the per-instance
mutable attributes of `SecuritySpy` become the record `St`, and every
fallible operation (dict subscript, `int()`, `strptime`, comparison of
incompatible types) returns `Except PyErr`.  Wall-clock time (`time.time()`)
and the transport results (`xmltodict` trees, stream attach success) are
inputs of the embedded functions, since the HTTP transport is an external
collaborator of the modelled system.
-/

namespace Pysecspy

/-- A Python runtime error class, as far as the modelled code distinguishes
them (all of them are caught by the bare handler in `_process_message`). -/
inductive PyErr where
  | keyError
  | indexError
  | typeError
  | valueError
  deriving Repr, DecidableEq

/-- A Python value as it appears in the dictionaries handled by the code:
strings, ints, bools, `None`, floats (modelled exactly as rationals) and
lists of strings (the PTZ preset-name list).  Python `bool` is kept distinct
from `int`; the arithmetic/comparison helpers below implement the
`bool <= int` subclassing where the code can observe it. -/
inductive PVal where
  | vstr (s : String)
  | vint (n : Int)
  | vbool (b : Bool)
  | vnone
  | vrat (q : Rat)
  | vlist (l : List String)
  deriving Repr, DecidableEq

/-- Python key equality as used by `dict` lookup on the keys this code
actually uses (strings and ints; `bool` equals its int value).  Lists are
unhashable in Python and can never be dict keys, so they compare unequal. -/
def pyKeyEq : PVal → PVal → Bool
  | .vstr a, .vstr b => a = b
  | .vint a, .vint b => a = b
  | .vbool a, .vbool b => a = b
  | .vint a, .vbool b => a = (if b then 1 else 0)
  | .vbool a, .vint b => (if a then 1 else 0 : Int) = b
  | .vnone, .vnone => true
  | .vrat a, .vrat b => a = b
  | .vint a, .vrat b => (a : Rat) = b
  | .vrat a, .vint b => a = (b : Rat)
  | .vbool a, .vrat b => ((if a then 1 else 0 : Rat)) = b
  | .vrat a, .vbool b => a = ((if b then 1 else 0 : Rat))
  | _, _ => false

/-- Python truthiness (`bool(x)`) for the modelled values. -/
def pyTruthy : PVal → Bool
  | .vstr s => s ≠ ""
  | .vint n => n ≠ 0
  | .vbool b => b
  | .vnone => false
  | .vrat q => q ≠ 0
  | .vlist l => l ≠ []

/-- Lexicographic comparison of character lists by code point (how Python
compares `str` values). -/
def charListLtB : List Char → List Char → Bool
  | [], [] => false
  | [], _ :: _ => true
  | _ :: _, [] => false
  | a :: as, b :: bs =>
    if a.toNat < b.toNat then true
    else if b.toNat < a.toNat then false
    else charListLtB as bs

/-- Python `a < b` on strings. -/
def pyStrLtB (a b : String) : Bool := charListLtB a.toList b.toList

/-- Python `>` between two values: string/string compares lexicographically
by code point, numeric kinds compare numerically (with `bool` as 0/1),
anything else raises `TypeError`. -/
def pyGtB : PVal → PVal → Except PyErr Bool
  | .vstr a, .vstr b => .ok (pyStrLtB b a)
  | .vint a, .vint b => .ok (decide (b < a))
  | .vbool a, .vbool b => .ok (decide (b < a))
  | .vint a, .vbool b => .ok (decide ((if b then 1 else 0 : Int) < a))
  | .vbool a, .vint b => .ok (decide (b < (if a then 1 else 0 : Int)))
  | .vrat a, .vrat b => .ok (decide (b < a))
  | .vrat a, .vint b => .ok (decide ((b : Rat) < a))
  | .vint a, .vrat b => .ok (decide (b < (a : Rat)))
  | .vrat a, .vbool b => .ok (decide ((if b then 1 else 0 : Rat) < a))
  | .vbool a, .vrat b => .ok (decide (b < (if a then 1 else 0 : Rat)))
  | _, _ => .error .typeError

/-- A Python dict with string keys, as an insertion-ordered association
list; the embedded code never creates duplicate keys. -/
abbrev PDict := List (String × PVal)

/-- `d.get(k)` with default `None` conflated with a stored `None`
(exactly what `.get(k)`/`.get(k, None)` observes). -/
def dgetPy (d : PDict) (k : String) : PVal :=
  match d with
  | [] => .vnone
  | (k0, v) :: rest => if k0 = k then v else dgetPy rest k

/-- `d.get(k)` keeping "absent" distinct from a stored value. -/
def dget? (d : PDict) (k : String) : Option PVal :=
  match d with
  | [] => none
  | (k0, v) :: rest => if k0 = k then some v else dget? rest k

/-- `d[k]`: raises `KeyError` when absent. -/
def dgetE (d : PDict) (k : String) : Except PyErr PVal :=
  match dget? d k with
  | some v => .ok v
  | none => .error .keyError

/-- `d[k] = v`: replace in place when the key exists (dicts keep insertion
position on overwrite), append otherwise. -/
def dset (d : PDict) (k : String) (v : PVal) : PDict :=
  match d with
  | [] => [(k, v)]
  | (k0, v0) :: rest => if k0 = k then (k0, v) :: rest else (k0, v0) :: dset rest k v

/-- `d.update(new)`: fold the entries of `new` into `d`. -/
def dmerge (d new : PDict) : PDict :=
  new.foldl (fun acc p => dset acc p.1 p.2) d

/-- The list of keys of a dict. -/
def dkeys (d : PDict) : List String := d.map Prod.fst

/-- `d.keys().isdisjoint(ks)`. -/
def dkeysDisjoint (d : PDict) (ks : List String) : Bool :=
  (dkeys d).all (fun k => ¬ ks.contains k)

/-!  Dicts keyed by Python values (the ledgers are keyed by camera/event
ids, which the code takes from stream tokens or from the polled
`camera["number"]` field).  Lookup uses Python key equality. -/

/-- A Python dict keyed by Python values, holding dicts. -/
abbrev PMap := List (PVal × PDict)

/-- Lookup in a value-keyed dict. -/
def pmGet? (m : PMap) (k : PVal) : Option PDict :=
  match m with
  | [] => none
  | (k0, v) :: rest => if pyKeyEq k0 k then some v else pmGet? rest k

/-- `k in m`. -/
def pmHas (m : PMap) (k : PVal) : Bool := (pmGet? m k).isSome

/-- `m[k] = v` with dict overwrite-in-place semantics (the original key
object and its position are kept on overwrite). -/
def pmSet (m : PMap) (k : PVal) (v : PDict) : PMap :=
  match m with
  | [] => [(k, v)]
  | (k0, v0) :: rest => if pyKeyEq k0 k then (k0, v) :: rest else (k0, v0) :: pmSet rest k v

/-- `m.setdefault(k, {}).update(new)`: merge `new` into the entry for `k`,
creating it when absent. -/
def pmSetdefaultUpdate (m : PMap) (k : PVal) (new : PDict) : PMap :=
  match pmGet? m k with
  | some old => pmSet m k (dmerge old new)
  | none => pmSet m k (dmerge [] new)

/-- Like `pmGet?` but keyed dict of plain values (the
`_motion_detected_time` side table). -/
abbrev PValMap := List (PVal × PVal)

/-- Lookup in the side table. -/
def pvmGet? (m : PValMap) (k : PVal) : Option PVal :=
  match m with
  | [] => none
  | (k0, v) :: rest => if pyKeyEq k0 k then some v else pvmGet? rest k

/-- Store in the side table (overwrite in place). -/
def pvmSet (m : PValMap) (k : PVal) (v : PVal) : PValMap :=
  match m with
  | [] => [(k, v)]
  | (k0, v0) :: rest => if pyKeyEq k0 k then (k0, v) :: rest else (k0, v0) :: pvmSet rest k v

/-!  Constants from `pysecspy/const.py` and `pysecspy/data.py`. -/

/-- `data.MAX_SUPPORTED_CAMERAS`. -/
def MAX_SUPPORTED_CAMERAS : Nat := 256

/-- `data.MAX_EVENT_HISTORY_IN_STATE_MACHINE = MAX_SUPPORTED_CAMERAS * 2`. -/
def MAX_EVENT_HISTORY_IN_STATE_MACHINE : Nat := MAX_SUPPORTED_CAMERAS * 2

/-- `const.CAMERA_MESSAGES`. -/
def CAMERA_MESSAGES : List String :=
  ["ARM_A", "DISARM_A", "ARM_C", "DISARM_C", "ARM_M", "DISARM_M"]

/-- `const.EVENT_MESSAGES`. -/
def EVENT_MESSAGES : List String :=
  ["TRIGGER_M", "MOTION", "CLASSIFY", "MOTION_END", "ONLINE", "OFFLINE"]

/-- `const.CAMERA_KEYS`. -/
def CAMERA_KEYS : List String :=
  ["state", "recordingSettings_A", "recordingSettings_C", "recordingSettings_M",
   "recording_mode_a", "recording_mode_c", "recording_mode_m", "isOnline",
   "enabled", "reason", "lastMotion", "isMotionDetected"]

/-- `const.KEY_CAMERA`. -/
def KEY_CAMERA : String := "camera"

/-- `const.KEY_EVENT`. -/
def KEY_EVENT : String := "event"

/-- `const.EVENT_MOTION`. -/
def EVENT_MOTION : String := "motion"

/-- `const.EVENT_SMART_DETECT_ZONE`. -/
def EVENT_SMART_DETECT_ZONE : String := "smart"

/-- `const.EVENT_LENGTH_PRECISION` (digits used by `round`). -/
def EVENT_LENGTH_PRECISION : Nat := 3

/-- `const.DEVICE_UPDATE_INTERVAL_SECONDS`. -/
def DEVICE_UPDATE_INTERVAL_SECONDS : Int := 60

/-- `const.WEBSOCKET_CHECK_INTERVAL_SECONDS`. -/
def WEBSOCKET_CHECK_INTERVAL_SECONDS : Int := 120

/-- `const.REASON_CODES` membership (`event_reason not in REASON_CODES`).
Membership in a Python dict uses key equality, so only the string keys
"128"/"256"/"512" are in it. -/
def REASON_CODES_get : PVal → Option String
  | .vstr "128" => some "Human"
  | .vstr "256" => some "Vehicle"
  | .vstr "512" => some "Animal"
  | _ => none

/-- `const.PROCESSED_EVENT_EMPTY`. -/
def PROCESSED_EVENT_EMPTY : PDict :=
  [("event_start", .vnone), ("event_on", .vbool false), ("event_type", .vnone),
   ("event_online", .vbool true), ("event_length", .vint 0), ("event_object", .vnone),
   ("event_score_human", .vint 0), ("event_score_vehicle", .vint 0),
   ("event_score_animal", .vint 0)]

/-!  `data.FixSizeOrderedDict` and the two state machines of
`pysecspy/data.py`. -/

/-- `data.FixSizeOrderedDict`: an `OrderedDict` with a maximum size. -/
structure FixSizeOrderedDict where
  entries : List (PVal × PDict)
  max_size : Nat
  deriving Repr, DecidableEq

/-- `FixSizeOrderedDict.__setitem__`: plain ordered-dict insert (overwrite
keeps the original position), then, when a maximum is configured and the
length exceeds it, `popitem(False)` removes the oldest-inserted entry. -/
def FixSizeOrderedDict.setitem (d : FixSizeOrderedDict) (k : PVal) (v : PDict) :
    FixSizeOrderedDict :=
  let e := if (d.entries.map Prod.fst).any (fun k0 => pyKeyEq k0 k)
    then d.entries.map (fun p => if pyKeyEq p.1 k then (p.1, v) else p)
    else d.entries ++ [(k, v)]
  let e := if 0 < d.max_size ∧ d.max_size < e.length then e.tail else e
  { d with entries := e }

/-- `OrderedDict.get` on the fixed-size dict (`None` when absent). -/
def FixSizeOrderedDict.get? (d : FixSizeOrderedDict) (k : PVal) : Option PDict :=
  pmGet? d.entries k

/-- `data.SecspyEventStateMachine`: its only state is the fixed-size dict
`_events`, initialised with `max_size = MAX_EVENT_HISTORY_IN_STATE_MACHINE`. -/
structure SecspyEventStateMachine where
  events : FixSizeOrderedDict
  deriving Repr, DecidableEq

/-- `SecspyEventStateMachine()` (fresh, empty). -/
def SecspyEventStateMachine.init : SecspyEventStateMachine :=
  ⟨⟨[], MAX_EVENT_HISTORY_IN_STATE_MACHINE⟩⟩

/-- `SecspyEventStateMachine.add`. -/
def SecspyEventStateMachine.add (m : SecspyEventStateMachine) (event_id : PVal)
    (event_json : PDict) : SecspyEventStateMachine :=
  ⟨m.events.setitem event_id event_json⟩

/-- `SecspyEventStateMachine.update`: returns `none` when the id was never
added (or was evicted); otherwise merges the new fields into the stored
record and returns the merged record (the stored dict is mutated in place
in Python, so the store also holds the merged record afterwards). -/
def SecspyEventStateMachine.update (m : SecspyEventStateMachine) (event_id : PVal)
    (new_event_json : PDict) : SecspyEventStateMachine × Option PDict :=
  match m.events.get? event_id with
  | none => (m, none)
  | some event_json =>
      let merged := dmerge event_json new_event_json
      (⟨m.events.setitem event_id merged⟩, some merged)

/-- `data.SecspyDeviceStateMachine`. -/
structure SecspyDeviceStateMachine where
  devices : PMap
  motion_detected_time : PValMap
  deriving Repr, DecidableEq

/-- `SecspyDeviceStateMachine.has_device`. -/
def SecspyDeviceStateMachine.has_device (m : SecspyDeviceStateMachine)
    (device_id : PVal) : Bool :=
  pmHas m.devices device_id

/-- `SecspyDeviceStateMachine.update`: `setdefault(id, {}).update(new)` and
return the merged record. -/
def SecspyDeviceStateMachine.updateDev (m : SecspyDeviceStateMachine)
    (device_id : PVal) (new_json : PDict) : SecspyDeviceStateMachine × PDict :=
  let devices := pmSetdefaultUpdate m.devices device_id new_json
  ({ m with devices := devices }, (pmGet? devices device_id).getD [])

/-- `SecspyDeviceStateMachine.set_motion_detected_time`. -/
def SecspyDeviceStateMachine.set_motion_detected_time (m : SecspyDeviceStateMachine)
    (device_id : PVal) (timestamp : PVal) : SecspyDeviceStateMachine :=
  { m with motion_detected_time := pvmSet m.motion_detected_time device_id timestamp }

/-- `SecspyDeviceStateMachine.get_motion_detected_time` (`.get`, so absent
reads as `None`). -/
def SecspyDeviceStateMachine.get_motion_detected_time (m : SecspyDeviceStateMachine)
    (device_id : PVal) : PVal :=
  (pvmGet? m.motion_detected_time device_id).getD .vnone

/-!  Python string/number helpers used by `secspy.py`. -/

/-- Per-character model of Python `str.isnumeric`: a character counts as
numeric when its Unicode `Numeric_Type` is Decimal, Digit or Numeric — a
strictly larger set than the ASCII digits (superscripts, fractions, other
scripts' digits, …).  The table is encoded here for the Latin-1 range
(code points below U+0100), where the numeric characters are exactly the
ASCII digits together with ¹ (U+00B9), ² (U+00B2), ³ (U+00B3), ¼ (U+00BC),
½ (U+00BD) and ¾ (U+00BE); theorems that rely on a character NOT being
numeric carry an explicit all-Latin-1 hypothesis so that no code point
outside the encoded range is ever consulted. -/
def pyCharIsNumeric (c : Char) : Bool :=
  c.isDigit || c.toNat == 0xB9 || c.toNat == 0xB2 || c.toNat == 0xB3 ||
  c.toNat == 0xBC || c.toNat == 0xBD || c.toNat == 0xBE

/-- `str.isnumeric()`: nonempty and every character Unicode-numeric. -/
def pyIsNumeric (s : String) : Bool := s.toList ≠ [] && s.toList.all pyCharIsNumeric

/-- Every character of `s` lies in the Latin-1 range, where
`pyCharIsNumeric` encodes the exact Unicode numeric table. -/
def latin1Only (s : String) : Bool := s.toList.all (fun c => c.toNat < 256)

/-- Parse a nonempty all-digit character list. -/
def parseDigitList? (l : List Char) : Option Nat :=
  if l ≠ [] && l.all Char.isDigit then
    some (l.foldl (fun n c => n * 10 + (c.toNat - 48)) 0)
  else none

/-- Parse a nonempty all-digit string. -/
def parseDigits? (s : String) : Option Nat := parseDigitList? s.toList

/-- Parse an optionally `-`-signed digit string (what `int(str)` accepts on
the inputs this code sees). -/
def parseInt? (s : String) : Option Int :=
  match s.toList with
  | '-' :: rest => (parseDigitList? rest).map (fun n => -(n : Int))
  | l => (parseDigitList? l).map (fun n => (n : Int))

/-- Python `int(x)`: ints stay, bools become 0/1, strings parse or raise
`ValueError`, floats truncate toward zero, `None` raises `TypeError`. -/
def pyInt : PVal → Except PyErr Int
  | .vint n => .ok n
  | .vbool b => .ok (if b then 1 else 0)
  | .vstr s => match parseInt? s with
    | some n => .ok n
    | none => .error .valueError
  | .vrat q => .ok (Rat.floor q + (if q < 0 ∧ (Rat.floor q : Rat) ≠ q then 1 else 0))
  | .vnone => .error .typeError
  | .vlist _ => .error .typeError

/-- Python `float(x)` on the values the code feeds it (integral strings,
ints, floats); anything else raises. -/
def pyFloat : PVal → Except PyErr Rat
  | .vint n => .ok (n : Rat)
  | .vrat q => .ok q
  | .vstr s => match parseInt? s with
    | some n => .ok (n : Rat)
    | none => .error .valueError
  | .vbool b => .ok (if b then 1 else 0)
  | .vnone => .error .typeError
  | .vlist _ => .error .typeError

/-- Python `str(x)` for the values interpolated into URLs. -/
def pyStr : PVal → String
  | .vstr s => s
  | .vint n => toString n
  | .vbool b => if b then "True" else "False"
  | .vnone => "None"
  | .vrat q => toString q
  | .vlist _ => "[]"

/-- Python `round(x, n)` (banker's rounding: ties go to the even integer). -/
def pyRound (q : Rat) (digits : Nat) : Rat :=
  let p : Rat := ((10 : Nat) ^ digits : Nat)
  let scaled := q * p
  let fl := Rat.floor scaled
  let frac := scaled - (fl : Rat)
  let n := if frac < 1/2 then fl
    else if 1/2 < frac then fl + 1
    else if fl % 2 = 0 then fl else fl + 1
  (n : Rat) / p

/-- Substring of `s` from character index `a` (inclusive) to `b`
(exclusive), like Python slicing on the strings at hand. -/
def strSlice (s : String) (a b : Nat) : String :=
  String.mk ((s.toList.drop a).take (b - a))

/-- Leap-year test of the Gregorian calendar (what `datetime` uses). -/
def isLeapYear (y : Nat) : Bool :=
  (y % 4 = 0 && y % 100 ≠ 0) || y % 400 = 0

/-- Days in a month of the Gregorian calendar. -/
def daysInMonth (y m : Nat) : Nat :=
  if m = 2 then (if isLeapYear y then 29 else 28)
  else if m = 4 ∨ m = 6 ∨ m = 9 ∨ m = 11 then 30
  else 31

/-- `datetime.strptime(ts, "%Y%m%d%H%M%S")` validation: exactly 14 digits
whose fields form a real calendar date-time (year at least 1); raises
`ValueError` otherwise. -/
def strptimeValid (s : String) : Bool :=
  s.length = 14 && s.toList.all Char.isDigit &&
    (let y := (parseDigits? (strSlice s 0 4)).getD 0
     let mo := (parseDigits? (strSlice s 4 6)).getD 0
     let d := (parseDigits? (strSlice s 6 8)).getD 0
     let h := (parseDigits? (strSlice s 8 10)).getD 0
     let mi := (parseDigits? (strSlice s 10 12)).getD 0
     let se := (parseDigits? (strSlice s 12 14)).getD 0
     1 ≤ y && 1 ≤ mo && mo ≤ 12 && 1 ≤ d && d ≤ daysInMonth y mo &&
       h ≤ 23 && mi ≤ 59 && se ≤ 59)

/-- `SecuritySpy._process_timestamp`: parse a `YYYYMMDDhhmmss` stamp and
re-format it as `YYYY-MM-DD hh:mm:ss`; `strptime` raises on anything that
is not a valid 14-digit stamp. -/
def process_timestamp : PVal → Except PyErr String
  | .vstr s =>
      if strptimeValid s then
        .ok (strSlice s 0 4 ++ "-" ++ strSlice s 4 6 ++ "-" ++ strSlice s 6 8 ++ " " ++
          strSlice s 8 10 ++ ":" ++ strSlice s 10 12 ++ ":" ++ strSlice s 12 14)
      else .error .valueError
  | _ => .error .typeError

/-- Left-pad a numeral to two digits. -/
def pad2 (n : Nat) : String := if n < 10 then "0" ++ toString n else toString n

/-- Left-pad a numeral to four digits (`%Y`). -/
def pad4 (n : Nat) : String :=
  if n < 10 then "000" ++ toString n
  else if n < 100 then "00" ++ toString n
  else if n < 1000 then "0" ++ toString n
  else toString n

/-- Civil date from a count of days since 1970-01-01 (the standard
era-based conversion used to model `datetime.fromtimestamp`). -/
def civilFromDays (z0 : Int) : Int × Nat × Nat :=
  let z := z0 + 719468
  let era := Int.fdiv z 146097
  let doe := (Int.fmod z 146097).toNat
  let yoe := (doe - doe / 1460 + doe / 36524 - doe / 146096) / 365
  let y := (yoe : Int) + era * 400
  let doy := doe - (365 * yoe + yoe / 4 - yoe / 100)
  let mp := (5 * doy + 2) / 153
  let d := doy - (153 * mp + 2) / 5 + 1
  let m := if mp < 10 then mp + 3 else mp - 9
  ((if mp < 10 then y else y + 1), m, d)

/-- `datetime.datetime.fromtimestamp(secs).strftime("%Y-%m-%d %H:%M:%S")`,
with the process-local timezone modelled as UTC (no theorem below depends
on the produced text). -/
def fromtimestampFmt (secs : Rat) : String :=
  let t := Rat.floor secs
  let days := Int.fdiv t 86400
  let sod := (Int.fmod t 86400).toNat
  let ymd := civilFromDays days
  pad4 ymd.1.toNat ++ "-" ++ pad2 ymd.2.1 ++ "-" ++ pad2 ymd.2.2 ++ " " ++
    pad2 (sod / 3600) ++ ":" ++ pad2 (sod % 3600 / 60) ++ ":" ++ pad2 (sod % 60)

/-!  The `SecuritySpy` client state (`secspy.py` `__init__`) and the
stream-message pipeline. -/

/-- The server credential value object (`self._server_credential`); the
base64 token computation is part of construction and is taken as given. -/
structure Credentials where
  host : String
  port : Int
  token : String
  deriving Repr, DecidableEq

/-- The mutable attributes of a `SecuritySpy` instance that the modelled
control flow reads or writes. -/
structure St where
  device_state_machine : SecspyDeviceStateMachine
  event_state_machine : SecspyEventStateMachine
  global_event_score_human : PVal
  global_event_score_vehicle : PVal
  global_event_score_animal : PVal
  global_event_object : PVal
  is_first_update : Bool
  last_device_update_time : Int
  last_websocket_check : Int
  processed_data : PMap
  server_credential : Credentials
  ws_task : Bool
  deriving Repr, DecidableEq

/-- A fresh `SecuritySpy` instance (given credentials). -/
def St.init (cred : Credentials) : St where
  device_state_machine := ⟨[], []⟩
  event_state_machine := SecspyEventStateMachine.init
  global_event_score_human := .vint 0
  global_event_score_vehicle := .vint 0
  global_event_score_animal := .vint 0
  global_event_object := .vnone
  is_first_update := true
  last_device_update_time := 0
  last_websocket_check := 0
  processed_data := []
  server_credential := cred
  ws_task := false

/-- One subscriber notification: the `{device_id: snapshot}` payload that
`fire_event` hands to every subscribed callback. -/
abbrev Fired := PVal × PDict

/-- `SecuritySpy._update_device`:
`self._processed_data.setdefault(device_id, {}).update(processed_update)`. -/
def update_device (s : St) (device_id : PVal) (processed_update : PDict) : St :=
  { s with processed_data := pmSetdefaultUpdate s.processed_data device_id processed_update }

/-- `SecuritySpy.fire_event`: merge the processed event into the projected
data and notify the subscribers with the merged record for that device. -/
def fire_event (s : St) (device_id : PVal) (processed_event : PDict) : St × List Fired :=
  let s1 := update_device s device_id processed_event
  (s1, [(device_id, (pmGet? s1.processed_data device_id).getD [])])

/-- `SecuritySpy._process_event_data`: derive the externally visible event
fields from a merged event record; fallible because `strptime`/`float` can
raise on malformed stored values. -/
def process_event_data (event : PDict) : Except PyErr PDict :=
  let start := dgetPy event "start"
  let endv := dgetPy event "end"
  let event_type := dgetPy event "type"
  let event_reason := dgetPy event "reason"
  let event_online := dgetPy event "isOnline"
  let event_score_human :=
    if pyTruthy (dgetPy event "event_score_human") then dgetPy event "event_score_human" else PVal.vint 0
  let event_score_vehicle :=
    if pyTruthy (dgetPy event "event_score_vehicle") then dgetPy event "event_score_vehicle" else PVal.vint 0
  let event_score_animal :=
    if pyTruthy (dgetPy event "event_score_animal") then dgetPy event "event_score_animal" else PVal.vint 0
  let startRes : Except PyErr PVal :=
    if pyTruthy start then
      match process_timestamp start with
      | .error e => .error e
      | .ok t => .ok (.vstr t)
    else .ok .vnone
  match startRes with
  | .error e => .error e
  | .ok start_time =>
    let lengthRes : Except PyErr PVal :=
      if pyTruthy endv then
        match pyFloat endv with
        | .error e => .error e
        | .ok e1 =>
          match pyFloat start with
          | .error e => .error e
          | .ok st1 =>
            .ok (.vrat (pyRound (e1 / 1000 - st1 / 1000) EVENT_LENGTH_PRECISION))
      else .ok (.vint 0)
    match lengthRes with
    | .error e => .error e
    | .ok event_length =>
      let event_object := match REASON_CODES_get event_reason with
        | some v => PVal.vstr v
        | none => PVal.vstr "None"
      let processed : PDict :=
        [("event_on", .vbool false), ("event_type", event_type), ("event_start", start_time),
         ("event_length", event_length), ("event_object", event_object),
         ("event_score_human", event_score_human), ("event_score_vehicle", event_score_vehicle),
         ("event_score_animal", event_score_animal), ("event_online", event_online)]
      if pyKeyEq event_type (.vstr EVENT_MOTION) || pyKeyEq event_type (.vstr EVENT_SMART_DETECT_ZONE) then
        let processed := dset processed "last_motion" start_time
        if ¬ pyTruthy endv then .ok (dset processed "event_on" (.vbool true))
        else .ok processed
      else .ok processed

/-- `SecuritySpy._event_from_updates`: route an event action into the event
state machine and return `(device_id, processed_event)`; the early
`return None, None` exits are encoded as `(.vnone, [])` (the caller only
checks `device_id is None`). -/
def event_from_updates (s : St) (action_json data_json : PDict) :
    St × Except PyErr (PVal × PDict) :=
  match dgetE action_json "modelKey" with
  | .error e => (s, .error e)
  | .ok mk =>
    if ¬ pyKeyEq mk (.vstr KEY_EVENT) then (s, .error .valueError)
    else match dgetE action_json "action" with
    | .error e => (s, .error e)
    | .ok action =>
      match dgetE action_json "id" with
      | .error e => (s, .error e)
      | .ok event_id =>
        if pyKeyEq action (.vstr "add") then
          let device_id := dgetPy data_json "camera"
          if device_id = .vnone then (s, .ok (.vnone, []))
          else
            let s1 := { s with event_state_machine :=
              s.event_state_machine.add event_id data_json }
            match process_event_data data_json with
            | .error e => (s1, .error e)
            | .ok processed => (s1, .ok (device_id, processed))
        else if pyKeyEq action (.vstr "update") then
          let (esm, eventOpt) := s.event_state_machine.update event_id data_json
          let s1 := { s with event_state_machine := esm }
          match eventOpt with
          | none => (s1, .ok (.vnone, []))
          | some event =>
            if event = ([] : List (String × PVal)) then (s1, .ok (.vnone, []))
            else
              let device_id := dgetPy event "camera"
              match process_event_data event with
              | .error e => (s1, .error e)
              | .ok processed => (s1, .ok (device_id, processed))
        else (s, .error .valueError)

/-- `SecuritySpy._process_event_updates`: skip when no device id resolved,
otherwise fire the processed event. -/
def process_event_updates (s : St) (action_json data_json : PDict) :
    St × Except PyErr (List Fired) :=
  match event_from_updates s action_json data_json with
  | (s1, .error e) => (s1, .error e)
  | (s1, .ok (device_id, processed)) =>
    if device_id = .vnone then (s1, .ok [])
    else
      let (s2, fired) := fire_event s1 device_id processed
      (s2, .ok fired)

/-- `SecuritySpy._process_camera_data`: project one raw camera record into
the externally visible camera fields.  `server_id` is `None` when called
from the stream path; `now` stands for `int(time.time())`. -/
def process_camera_data (server_id : Option PVal) (cred : Credentials) (camera : PDict)
    (include_events : Bool) (now : Int) : Except PyErr PDict :=
  match dgetE camera "number" with
  | .error e => .error e
  | .ok camera_id =>
  match dgetE camera "connected" with
  | .error e => .error e
  | .ok connected =>
  let camera_online := pyKeyEq connected (.vstr "yes")
  let camera_enabled := dgetPy camera "enabled"
  match dgetE camera "devicetype" with
  | .error e => .error e
  | .ok devicetype =>
  let camera_ip_address :=
    if pyKeyEq devicetype (.vstr "Local") then PVal.vstr "Local" else dgetPy camera "address"
  let recmodeARes : Except PyErr PVal :=
    if dgetPy camera "recordingSettings_A" ≠ .vnone
    then .ok (dgetPy camera "recordingSettings_A")
    else match dgetE camera "mode-a" with
      | .error e => .error e
      | .ok m => .ok (PVal.vbool (pyKeyEq m (.vstr "armed")))
  match recmodeARes with
  | .error e => .error e
  | .ok camera_recmode_a =>
  let recmodeCRes : Except PyErr PVal :=
    if dgetPy camera "recordingSettings_C" ≠ .vnone
    then .ok (dgetPy camera "recordingSettings_C")
    else match dgetE camera "mode-c" with
      | .error e => .error e
      | .ok m => .ok (PVal.vbool (pyKeyEq m (.vstr "armed")))
  match recmodeCRes with
  | .error e => .error e
  | .ok camera_recmode_c =>
  let recmodeMRes : Except PyErr PVal :=
    if dgetPy camera "recordingSettings_M" ≠ .vnone
    then .ok (dgetPy camera "recordingSettings_M")
    else match dgetE camera "mode-m" with
      | .error e => .error e
      | .ok m => .ok (PVal.vbool (pyKeyEq m (.vstr "armed")))
  match recmodeMRes with
  | .error e => .error e
  | .ok camera_recmode_m =>
  let base_url := cred.host ++ ":" ++ toString cred.port
  let base_stream := "rtsp://" ++ base_url ++ "/stream?auth=" ++ cred.token
  let camera_live_stream := base_stream ++ "&cameraNum=" ++ pyStr camera_id ++ "&codec=h264"
  match dgetE camera "width" with
  | .error e => .error e
  | .ok w =>
  let image_width := pyStr w
  match dgetE camera "height" with
  | .error e => .error e
  | .ok h =>
  let image_height := pyStr h
  let camera_latest_image := "http://" ++ base_url ++ "/image?auth=" ++ cred.token ++
    "&cameraNum=" ++ pyStr camera_id ++ "&width=" ++ image_width ++
    "&height=" ++ image_height ++ "&quality=75"
  let ptz := dgetPy camera "ptzcapabilities"
  let presetRes : Except PyErr (List String) :=
    if ptz ≠ .vnone then
      match pyInt ptz with
      | .error e => .error e
      | .ok p =>
        if 0 < p then
          .ok ((List.range 9).foldl (fun acc i =>
            let v := dgetPy camera ("preset-name-" ++ toString (i + 1))
            if v ≠ .vnone then acc ++ [pyStr v] else acc) [])
        else .ok []
    else .ok []
  match presetRes with
  | .error e => .error e
  | .ok preset_list =>
  match dgetE camera "name" with
  | .error e => .error e
  | .ok cname =>
  match dgetE camera "devicename" with
  | .error e => .error e
  | .ok devicename =>
  match dgetE camera "current-fps" with
  | .error e => .error e
  | .ok fps =>
  match dgetE camera "video-format" with
  | .error e => .error e
  | .ok video_format =>
  let camera_update : PDict :=
    [("name", cname), ("type", .vstr "camera"), ("model", devicename),
     ("online", .vbool camera_online), ("enabled", camera_enabled),
     ("recording_mode_a", camera_recmode_a), ("recording_mode_c", camera_recmode_c),
     ("recording_mode_m", camera_recmode_m), ("ip_address", camera_ip_address),
     ("live_stream", .vstr camera_live_stream), ("latest_image", .vstr camera_latest_image),
     ("image_width", .vstr image_width), ("image_height", .vstr image_height),
     ("fps", fps), ("video_format", video_format), ("ptz_capabilities", ptz),
     ("ptz_presets", .vlist preset_list)]
  let camera_update := match server_id with
    | some sid => dset camera_update "server_id" sid
    | none => camera_update
  if include_events then
    if dgetPy camera "timesincelastmotion" ≠ .vnone then
      match pyInt (dgetPy camera "timesincelastmotion") with
      | .error e => .error e
      | .ok tslm =>
        let last_update := now + tslm
        .ok (dset camera_update "last_motion"
          (.vstr (fromtimestampFmt ((last_update : Rat) / 1000))))
    else
      .ok (dset camera_update "last_motion" .vnone)
  else .ok camera_update

/-- `SecuritySpy._camera_event_from_updates`: build a motion event record
from a camera stream message, maintaining the motion-detected-time side
table; raises `KeyError` when `data_json` lacks `timesincelastmotion`. -/
def camera_event_from_updates (s : St) (now : Int) (action_json data_json : PDict) :
    St × Except PyErr (Option PDict) :=
  if dget? data_json "isMotionDetected" = none ∧ dget? data_json "timesincelastmotion" = none ∧
      dget? data_json "isOnline" = none then
    (s, .ok none)
  else
    match dgetE action_json "id" with
    | .error e => (s, .error e)
    | .ok camera_id =>
      let is_online := dgetPy data_json "isOnline"
      match dgetE data_json "timesincelastmotion" with
      | .error e => (s, .error e)
      | .ok tslmVal =>
        match pyInt tslmVal with
        | .error e => (s, .error e)
        | .ok tslm =>
          let last_motion : Int := now + tslm
          let is_motion_detected := dgetPy data_json "isMotionDetected"
          let (s1, start_time, event_on) :=
            if is_motion_detected = PVal.vnone then
              (s, s.device_state_machine.get_motion_detected_time camera_id, true)
            else if pyTruthy is_motion_detected then
              ({ s with device_state_machine :=
                  s.device_state_machine.set_motion_detected_time camera_id (.vint last_motion) },
               PVal.vint last_motion, true)
            else
              let st := s.device_state_machine.get_motion_detected_time camera_id
              ({ s with device_state_machine :=
                  s.device_state_machine.set_motion_detected_time camera_id .vnone },
               st, false)
          let lengthRes : Except PyErr PVal :=
            if start_time ≠ PVal.vnone then
              match pyFloat start_time with
              | .error e => .error e
              | .ok stq =>
                .ok (.vrat (pyRound (((last_motion : Rat) - stq) / 1000) EVENT_LENGTH_PRECISION))
            else .ok (.vint 0)
          match lengthRes with
          | .error e => (s1, .error e)
          | .ok event_length =>
            (s1, .ok (some
              [("event_on", .vbool event_on), ("event_type", .vstr "motion"),
               ("event_start", start_time), ("event_length", event_length),
               ("event_online", is_online)]))

/-- `SecuritySpy._camera_from_updates`: look the camera up in the device
ledger (skipping unknown cameras), merge the stream fields, and project the
camera.  Note the caller builds `action_json` with the key `"modelkey"`
while this function reads `"modelKey"`, so the lookup raises `KeyError`. -/
def camera_from_updates (s : St) (now : Int) (cred : Credentials)
    (action_json data_json : PDict) : St × Except PyErr (Option (PVal × PDict)) :=
  match dgetE action_json "modelKey" with
  | .error e => (s, .error e)
  | .ok mk =>
    if ¬ pyKeyEq mk (.vstr KEY_CAMERA) then (s, .error .valueError)
    else match dgetE action_json "id" with
    | .error e => (s, .error e)
    | .ok camera_id =>
      if ¬ s.device_state_machine.has_device camera_id then (s, .ok none)
      else
        let (dsm, camera) := s.device_state_machine.updateDev camera_id data_json
        let s1 := { s with device_state_machine := dsm }
        if dkeysDisjoint data_json CAMERA_KEYS then (s1, .ok none)
        else match process_camera_data none cred camera true now with
        | .error e => (s1, .error e)
        | .ok processed_camera => (s1, .ok (some (camera_id, processed_camera)))

/-- `SecuritySpy._process_camera_updates`: project the camera, then, for
each disarmed recording mode, merge in a freshly derived motion event, and
fire the result. -/
def process_camera_updates (s : St) (now : Int) (action_json data_json : PDict) :
    St × Except PyErr (List Fired) :=
  match camera_from_updates s now s.server_credential action_json data_json with
  | (s1, .error e) => (s1, .error e)
  | (s1, .ok none) => (s1, .ok [])
  | (s1, .ok (some (camera_id, processed_camera0))) =>
    match dgetE processed_camera0 "recording_mode_m" with
    | .error e => (s1, .error e)
    | .ok rm_m =>
      let (s2, res2) : St × Except PyErr PDict :=
        if ¬ pyTruthy rm_m then
          match camera_event_from_updates s1 now action_json data_json with
          | (s', .error e) => (s', .error e)
          | (s', .ok none) => (s', .ok processed_camera0)
          | (s', .ok (some pe)) => (s', .ok (dmerge processed_camera0 pe))
        else (s1, .ok processed_camera0)
      match res2 with
      | .error e => (s2, .error e)
      | .ok pc2 =>
        match dgetE pc2 "recording_mode_c" with
        | .error e => (s2, .error e)
        | .ok rm_c =>
          let (s3, res3) : St × Except PyErr PDict :=
            if ¬ pyTruthy rm_c then
              match camera_event_from_updates s2 now action_json data_json with
              | (s', .error e) => (s', .error e)
              | (s', .ok none) => (s', .ok pc2)
              | (s', .ok (some pe)) => (s', .ok (dmerge pc2 pe))
            else (s2, .ok pc2)
          match res3 with
          | .error e => (s3, .error e)
          | .ok pc3 =>
            match dgetE pc3 "recording_mode_a" with
            | .error e => (s3, .error e)
            | .ok rm_a =>
              let (s4, res4) : St × Except PyErr PDict :=
                if ¬ pyTruthy rm_a then
                  match camera_event_from_updates s3 now action_json data_json with
                  | (s', .error e) => (s', .error e)
                  | (s', .ok none) => (s', .ok pc3)
                  | (s', .ok (some pe)) => (s', .ok (dmerge pc3 pe))
                else (s3, .ok pc3)
              match res4 with
              | .error e => (s4, .error e)
              | .ok pc4 =>
                let (s5, fired) := fire_event s4 camera_id pc4
                (s5, .ok fired)

/-- The `try` body of the `CLASSIFY` branch: assign the three score
attributes from tokens 5/7/9 (as strings) and clear the event object; an
`IndexError` keeps the assignments already made and runs the `except`
handler, which sets the animal score to the int `0`.  Returns the new
`(human, vehicle, animal, object)` values. -/
def classifyAssign (s : St) (tokens : List String) : PVal × PVal × PVal × PVal :=
  match tokens.get? 5 with
  | none => (s.global_event_score_human, s.global_event_score_vehicle, .vint 0,
      s.global_event_object)
  | some t5 =>
    match tokens.get? 7 with
    | none => (.vstr t5, s.global_event_score_vehicle, .vint 0, s.global_event_object)
    | some t7 =>
      match tokens.get? 9 with
      | none => (.vstr t5, .vstr t7, .vint 0, s.global_event_object)
      | some t9 => (.vstr t5, .vstr t7, .vstr t9, .vnone)

/-- Python `(x > y) and (z > w)` with its short-circuit (the second
comparison only runs when the first is true). -/
def pyAndGt (x y z w : PVal) : Except PyErr Bool := do
  let b ← pyGtB x y
  if b then pyGtB z w else pure false

/-- The `finally` block of the `CLASSIFY` branch: three sequential `if`
statements, each assigning a reason code when one score is strictly
greater than both others; a comparison of incompatible values raises, in
which case the object assigned so far is kept and the error escapes the
branch. -/
def classifyObject (obj0 h v a : PVal) : PVal × Option PyErr :=
  match pyAndGt h v h a with
  | .error e => (obj0, some e)
  | .ok b1 =>
    let o1 := if b1 then PVal.vstr "128" else obj0
    match pyAndGt v h v a with
    | .error e => (o1, some e)
    | .ok b2 =>
      let o2 := if b2 then PVal.vstr "256" else o1
      match pyAndGt a h a v with
      | .error e => (o2, some e)
      | .ok b3 => (if b3 then PVal.vstr "512" else o2, none)

/-- `SecuritySpy._process_message` after the numeric-prefix guard and the
split: dispatch on the action code (token 3).  Mirrors the Python body
line by line; the state returned alongside an error is the state at the
moment the error was raised (the bare `except` in `_process_message` keeps
all mutations made before the raise). -/
def process_tokens (s : St) (now : Int) (t0 t1 t2 t3 : String) (rest : List String) :
    St × Except PyErr (List Fired) :=
  let tokens : List String := t0 :: t1 :: t2 :: t3 :: rest
  if CAMERA_MESSAGES.contains t3 then
    -- model_key = KEY_CAMERA
    let action_json : PDict := [("modelkey", .vstr KEY_CAMERA), ("id", .vstr t2)]
    let data_json : PDict :=
      if t3 = "ARM_A" then [("recordingSettings_A", .vbool true)]
      else if t3 = "ARM_C" then [("recordingSettings_C", .vbool true)]
      else if t3 = "ARM_M" then [("recordingSettings_M", .vbool true)]
      else if t3 = "DISARM_A" then [("recordingSettings_A", .vbool false)]
      else if t3 = "DISARM_C" then [("recordingSettings_C", .vbool false)]
      else [("recordingSettings_M", .vbool false)]
    process_camera_updates s now action_json data_json
  else if EVENT_MESSAGES.contains t3 then
    -- model_key = KEY_EVENT
    if t3 = "ONLINE" then
      let data_json : PDict :=
        [("type", .vstr "online"), ("camera", .vstr t2), ("isOnline", .vbool true)]
      let action_json : PDict :=
        [("modelKey", .vstr KEY_EVENT), ("action", .vstr "add"), ("id", .vstr t2)]
      process_event_updates s action_json data_json
    else if t3 = "OFFLINE" then
      let data_json : PDict :=
        [("type", .vstr "online"), ("camera", .vstr t2), ("isOnline", .vbool false)]
      let action_json : PDict :=
        [("modelKey", .vstr KEY_EVENT), ("action", .vstr "add"), ("id", .vstr t2)]
      process_event_updates s action_json data_json
    else if t3 = "TRIGGER_M" then
      match tokens.get? 4 with
      | none => (s, .error .indexError)
      | some t4 =>
        let s1 := { s with global_event_object := PVal.vstr t4 }
        let data_json : PDict :=
          [("type", .vstr "motion"), ("start", .vstr t0), ("camera", .vstr t2),
           ("reason", s1.global_event_object),
           ("event_score_human", s1.global_event_score_human),
           ("event_score_vehicle", s1.global_event_score_vehicle),
           ("isMotionDetected", .vbool true), ("isOnline", .vbool true)]
        let action_json : PDict :=
          [("modelKey", .vstr KEY_EVENT), ("action", .vstr "add"), ("id", .vstr t2)]
        process_event_updates s1 action_json data_json
    else if t3 = "MOTION" then
      let data_json : PDict :=
        [("type", .vstr "motion"), ("start", .vstr t0), ("camera", .vstr t2),
         ("reason", s.global_event_object),
         ("event_score_human", s.global_event_score_human),
         ("event_score_vehicle", s.global_event_score_vehicle),
         ("isMotionDetected", .vbool true), ("isOnline", .vbool true)]
      let action_json : PDict :=
        [("modelKey", .vstr KEY_EVENT), ("action", .vstr "add"), ("id", .vstr t2)]
      process_event_updates s action_json data_json
    else if t3 = "MOTION_END" then
      let s1 := { s with
        global_event_score_human := PVal.vint 0
        global_event_score_vehicle := PVal.vint 0
        global_event_object := PVal.vnone }
      let data_json : PDict :=
        [("type", .vstr "motion"), ("end", .vstr t0), ("camera", .vstr t2),
         ("isMotionDetected", .vbool false), ("reason", s1.global_event_object),
         ("event_score_human", s1.global_event_score_human),
         ("event_score_vehicle", s1.global_event_score_vehicle),
         ("isOnline", .vbool true)]
      let action_json : PDict :=
        [("modelKey", .vstr KEY_EVENT), ("action", .vstr "update"), ("id", .vstr t2)]
      process_event_updates s1 action_json data_json
    else
      -- t3 = "CLASSIFY"
      let (hsc, vsc, asc, obj1) := classifyAssign s tokens
      let (obj2, err) := classifyObject obj1 hsc vsc asc
      let s1 := { s with
        global_event_score_human := hsc
        global_event_score_vehicle := vsc
        global_event_score_animal := asc
        global_event_object := obj2 }
      match err with
      | some e => (s1, .error e)
      | none =>
        let data_json : PDict :=
          [("type", .vstr "motion"), ("start", .vstr t0), ("camera", .vstr t2),
           ("reason", s1.global_event_object),
           ("event_score_human", s1.global_event_score_human),
           ("event_score_vehicle", s1.global_event_score_vehicle),
           ("event_score_animal", s1.global_event_score_animal),
           ("isOnline", .vbool true)]
        let action_json : PDict :=
          [("modelKey", .vstr KEY_EVENT), ("action", .vstr "add"), ("id", .vstr t2)]
        process_event_updates s1 action_json data_json
  else
    -- model_key is None: drop the line
    (s, .ok [])

/-- Python `data.split(" ")`: split on every single space, keeping empty
pieces, the whole string when no space occurs. -/
def pySplitSpaceAux : List Char → List Char → List String
  | [], acc => [String.mk acc.reverse]
  | c :: rest, acc =>
    if c = ' ' then String.mk acc.reverse :: pySplitSpaceAux rest []
    else pySplitSpaceAux rest (c :: acc)

/-- Python `data.split(" ")` on a string. -/
def pySplitSpace (data : String) : List String := pySplitSpaceAux data.toList []

/-- `SecuritySpy._process_message`: drop lines whose first 14 characters
are not all digits, split on single spaces, dispatch on the action code;
every error raised inside the body is swallowed by the bare `except`
(logged only), keeping the mutations made before the raise. -/
def process_message (s : St) (now : Int) (data : String) : St × List Fired :=
  if pyIsNumeric (data.take 14) then
    match pySplitSpace data with
    | t0 :: t1 :: t2 :: t3 :: rest =>
      match process_tokens s now t0 t1 t2 t3 rest with
      | (s1, .ok fired) => (s1, fired)
      | (s1, .error _) => (s1, [])
    | _ => (s, [])
  else (s, [])

/-!  The poll path (`update` → `_get_devices` → `_process_cameras`).  The
HTTP transport and the XML decoding are external collaborators, so the
decoded `systemInfo` tree arrives as an input: its server uuid and its
camera list (the `isinstance` normalisation of a single-camera tree into a
one-element list is part of decoding the transport tree). -/

/-- The decoded `systemInfo` response consumed by a poll. -/
structure PollData where
  serverUuid : PVal
  cameras : List PDict
  deriving Repr, DecidableEq

/-- The loop body of `SecuritySpy._process_cameras`, one camera at a time;
an error stops the loop (the raise propagates) but keeps the mutations
already made. -/
def process_cameras_go (s : St) (now : Int) (server_id : PVal) (include_events : Bool) :
    List PDict → St × Except PyErr Unit
  | [] => (s, .ok ())
  | camera :: restCams =>
    match dgetE camera "number" with
    | .error e => (s, .error e)
    | .ok camera_id =>
      let s1 := if s.is_first_update then update_device s camera_id PROCESSED_EVENT_EMPTY else s
      let camera1 := if s1.is_first_update then dset camera "enabled" (.vbool true) else camera
      let (dsm, _) := s1.device_state_machine.updateDev camera_id camera1
      let s2 := { s1 with device_state_machine := dsm }
      match process_camera_data (some server_id) s2.server_credential camera1
          (include_events || s2.is_first_update) now with
      | .error e => (s2, .error e)
      | .ok upd => process_cameras_go (update_device s2 camera_id upd) now server_id
          include_events restCams

/-- `SecuritySpy._process_cameras`. -/
def process_cameras (s : St) (now : Int) (poll : PollData) (server_id : PVal)
    (include_events : Bool) : St × Except PyErr Unit :=
  process_cameras_go s now server_id include_events poll.cameras

/-- `SecuritySpy._get_devices`: read the server uuid from the decoded
tree, process the cameras, then clear the first-update flag. -/
def get_devices (s : St) (now : Int) (poll : PollData) (include_events : Bool) :
    St × Except PyErr Unit :=
  let server_id := poll.serverUuid
  match process_cameras s now poll server_id include_events with
  | (s1, .error e) => (s1, .error e)
  | (s1, .ok ()) => ({ s1 with is_first_update := false }, .ok ())

/-- `SecuritySpy.start_listening`: a no-op when the streamer task already
runs; otherwise open the stream connection — `attach_ok` is whether the
transport request succeeds — and start the streamer task on success
(connection errors return without a task). -/
def start_listening (s : St) (attach_ok : Bool) : St :=
  if s.ws_task then s
  else if attach_ok then { s with ws_task := true } else s

/-- `SecuritySpy.update`: poll the devices when forced or when the poll
interval elapsed, re-check the stream connection on its own interval, and
return the projected data, an empty dict, or fall through returning
`None`.  `now` is `time.time()`, `poll` the decoded `systemInfo` tree a
poll would fetch, `attach_ok` whether a stream attach would succeed. -/
def St.update (s : St) (now : Int) (force_camera_update : Bool) (poll : PollData)
    (attach_ok : Bool) : St × Except PyErr (Option PMap) :=
  let device_update := force_camera_update ||
    decide (now - DEVICE_UPDATE_INTERVAL_SECONDS > s.last_device_update_time)
  let afterPoll : St × Except PyErr Unit :=
    if device_update then
      match get_devices s now poll (!s.ws_task) with
      | (s1, .error e) => (s1, .error e)
      | (s1, .ok ()) => ({ s1 with last_device_update_time := now }, .ok ())
    else (s, .ok ())
  match afterPoll with
  | (s1, .error e) => (s1, .error e)
  | (s1, .ok ()) =>
    let s2 := if now - WEBSOCKET_CHECK_INTERVAL_SECONDS > s1.last_websocket_check then
        start_listening { s1 with last_websocket_check := now } attach_ok
      else s1
    if s2.ws_task || s2.last_websocket_check = now then
      (s2, .ok (some (if device_update then s2.processed_data else [])))
    else (s2, .ok none)

/-- The `data_json` built by the `CLASSIFY` branch (type/start/camera/
reason/three scores/isOnline). -/
def classifyDJ (t0 t2 : String) (reasonv hv vv av : PVal) : PDict :=
  [("type", .vstr "motion"), ("start", .vstr t0), ("camera", .vstr t2),
   ("reason", reasonv), ("event_score_human", hv), ("event_score_vehicle", vv),
   ("event_score_animal", av), ("isOnline", .vbool true)]

/-- The `action_json` built by the `CLASSIFY` branch. -/
def classifyAJ (t2 : String) : PDict :=
  [("modelKey", .vstr KEY_EVENT), ("action", .vstr "add"), ("id", .vstr t2)]

/-- The field `k` of the projected record of camera `id'`, or `none` when
the camera or the field is absent. -/
def fieldAt (m : PMap) (id : PVal) (k : String) : Option PVal :=
  (pmGet? m id).bind (fun d => dget? d k)

/-- Insert a list of events in order (one `SecspyEventStateMachine.add` per
id/record pair). -/
def addAllEvents (l : List (PVal × PDict)) (m : SecspyEventStateMachine) :
    SecspyEventStateMachine :=
  l.foldl (fun acc p => acc.add p.1 p.2) m

/-- A concrete family of 513 events with pairwise-distinct integer ids. -/
def c2WitnessList : List (PVal × PDict) :=
  (List.range (MAX_EVENT_HISTORY_IN_STATE_MACHINE + 1)).map
    (fun (i : Nat) => (PVal.vint (Int.ofNat i), ([] : PDict)))

/-- A server state whose last websocket check is recent and whose websocket
task is not running. -/
def c4s : St := { St.init ⟨"h", 8000, "tok"⟩ with last_websocket_check := 100 }

/-- A poll payload carrying no camera sections. -/
def pollEmpty : PollData := ⟨.vstr "u", []⟩

/-- State after the stream line `20190927092026 3 3 MOTION`: camera 3 has a
live motion event (`event_on` true, `last_motion` set). -/
def sM : St :=
  (process_message (St.init ⟨"h", 8000, "tok"⟩) 100 "20190927092026 3 3 MOTION").1

/-- The same state with the event-stream task marked active. -/
def sWs : St := { sM with ws_task := true }

/-- A stream line whose 14-character prefix is fourteen SUPERSCRIPT TWO
characters: every prefix character is Unicode-numeric, none is a decimal
digit. -/
def c7line : String := "²²²²²²²²²²²²²² 1 3 MOTION"

/-- A poll record for camera 3 without a `timesincelastmotion` entry. -/
def camPoll : PDict :=
  [("number", .vstr "3"), ("connected", .vstr "yes"), ("devicetype", .vstr "Local"),
   ("mode-a", .vstr "armed"), ("mode-c", .vstr "armed"), ("mode-m", .vstr "armed"),
   ("width", .vstr "640"), ("height", .vstr "480"), ("name", .vstr "Cam3"),
   ("devicename", .vstr "ModelX"), ("current-fps", .vstr "25"),
   ("video-format", .vstr "H264")]


/-!  Helper lemmas about the dictionary operations. -/

theorem dget?_dset_self (d : PDict) (k : String) (v : PVal) :
    dget? (dset d k v) k = some v := by
  induction d with
  | nil => simp [dset, dget?]
  | cons p rest ih =>
    by_cases h : p.1 = k
    · simp [dset, dget?, h]
    · simp [dset, dget?, h, ih]

theorem dget?_dset_ne (d : PDict) (k k' : String) (v : PVal) (h : k' ≠ k) :
    dget? (dset d k v) k' = dget? d k' := by
  induction d with
  | nil =>
    simp only [dset, dget?]
    rw [if_neg (fun hh => h hh.symm)]
  | cons p rest ih =>
    have hk' : ¬ k = k' := fun hh => h hh.symm
    by_cases hp : p.1 = k
    · simp only [dset, if_pos hp, dget?]
      rw [hp, if_neg hk', if_neg hk']
    · by_cases hq : p.1 = k'
      · have hq' : ¬ k' = k := hq ▸ hp
        simp [dset, dget?, hp, hq, hq']
      · simp [dset, dget?, hp, hq, ih]

theorem dget?_dmerge_not_mem (d new : PDict) (k : String) (h : ¬ k ∈ dkeys new) :
    dget? (dmerge d new) k = dget? d k := by
  induction new generalizing d with
  | nil => simp [dmerge]
  | cons p rest ih =>
    simp only [dkeys, List.map_cons, List.mem_cons, not_or] at h
    have step : dmerge d (p :: rest) = dmerge (dset d p.1 p.2) rest := by
      simp [dmerge]
    rw [step, ih _ (by simpa [dkeys] using h.2), dget?_dset_ne _ _ _ _ h.1]

theorem dget?_dmerge_mem (d new : PDict) (k : String) (v : PVal)
    (hnodup : (dkeys new).Nodup) (hmem : (k, v) ∈ new) :
    dget? (dmerge d new) k = some v := by
  induction new generalizing d with
  | nil => simp at hmem
  | cons p rest ih =>
    have step : dmerge d (p :: rest) = dmerge (dset d p.1 p.2) rest := by
      simp [dmerge]
    simp only [dkeys, List.map_cons, List.nodup_cons] at hnodup
    rcases List.mem_cons.mp hmem with hhead | htail
    · subst hhead
      rw [step, dget?_dmerge_not_mem _ _ _ (by simpa [dkeys] using hnodup.1),
        dget?_dset_self]
    · exact step ▸ ih (dset d p.1 p.2) hnodup.2 htail

theorem dget?_eq_none_of_not_mem (d : PDict) (k : String) (h : ¬ k ∈ dkeys d) :
    dget? d k = none := by
  induction d with
  | nil => simp [dget?]
  | cons p rest ih =>
    simp only [dkeys, List.map_cons, List.mem_cons, not_or] at h
    simp only [dget?]
    rw [if_neg (fun hh => h.1 hh.symm)]
    exact ih (by simpa [dkeys] using h.2)

theorem mem_of_dget?_eq_some (d : PDict) (k : String) (v : PVal)
    (h : dget? d k = some v) : (k, v) ∈ d := by
  induction d with
  | nil => simp [dget?] at h
  | cons p rest ih =>
    simp only [dget?] at h
    by_cases hp : p.1 = k
    · rw [if_pos hp] at h
      injection h with h2
      exact List.mem_cons.mpr (Or.inl (by cases p; cases h2; cases hp; rfl))
    · rw [if_neg hp] at h
      exact List.mem_cons_of_mem _ (ih h)

theorem dget?_isSome_of_mem (d : PDict) (k : String) (h : k ∈ dkeys d) :
    ∃ v, dget? d k = some v := by
  induction d with
  | nil => simp [dkeys] at h
  | cons p rest ih =>
    simp only [dget?]
    by_cases hp : p.1 = k
    · exact ⟨p.2, by rw [if_pos hp]⟩
    · have h0 : k ∈ p.1 :: List.map Prod.fst rest := h
      rcases List.mem_cons.mp h0 with h1 | h2
      · exact absurd h1.symm hp
      · rw [if_neg hp]
        exact ih h2

theorem dget?_dmerge_right (d new : PDict) (k : String)
    (hnodup : (dkeys new).Nodup) (hmem : k ∈ dkeys new) :
    dget? (dmerge d new) k = dget? new k := by
  obtain ⟨v, hv⟩ := dget?_isSome_of_mem new k hmem
  rw [hv, dget?_dmerge_mem d new k v hnodup (mem_of_dget?_eq_some _ _ _ hv)]

theorem pyKeyEq_symm (a b : PVal) : pyKeyEq a b = pyKeyEq b a := by
  cases a <;> cases b <;> simp [pyKeyEq, eq_comm]

theorem pyKeyEq_vstr_refl (s : String) : pyKeyEq (.vstr s) (.vstr s) = true := by
  simp [pyKeyEq]

theorem pyKeyEq_vint_refl (n : Int) : pyKeyEq (.vint n) (.vint n) = true := by
  simp [pyKeyEq]

theorem pyKeyEq_vint_ne (a b : Int) (h : a ≠ b) :
    pyKeyEq (.vint a) (.vint b) = false := by
  simp [pyKeyEq, h]


theorem fieldAt_pmSetdefaultUpdate_of_absent (m : PMap) (id : PVal) (u : PDict)
    (k : String) (hk : ¬ k ∈ dkeys u) (id' : PVal) :
    fieldAt (pmSetdefaultUpdate m id u) id' k = fieldAt m id' k := by
  induction m with
  | nil =>
    simp only [pmSetdefaultUpdate, pmGet?, pmSet, fieldAt]
    by_cases h : pyKeyEq id id' = true
    · simp [h, dget?_dmerge_not_mem _ _ _ hk, dget?]
    · simp [h]
  | cons p rest ih =>
    by_cases hp : pyKeyEq p.1 id = true
    · simp only [pmSetdefaultUpdate, pmGet?, hp, if_pos, pmSet, fieldAt]
      by_cases hq : pyKeyEq p.1 id' = true
      · simp [hq, dget?_dmerge_not_mem _ _ _ hk]
      · simp [hq]
    · have hrec : pmSetdefaultUpdate (p :: rest) id u = p :: pmSetdefaultUpdate rest id u := by
        simp only [pmSetdefaultUpdate, pmGet?, hp, if_neg, Bool.false_eq_true, ite_false]
        cases hrest : pmGet? rest id with
        | some old => simp [pmSet, hp, hrest]
        | none => simp [pmSet, hp, hrest]
      rw [hrec]
      by_cases hq : pyKeyEq p.1 id' = true
      · simp [fieldAt, pmGet?, hq]
      · simpa [fieldAt, pmGet?, hq] using ih

/-!  Helper lemmas about `FixSizeOrderedDict` and the event ledger. -/

theorem pmGet?_map_replace (m : PMap) (k : PVal) (v : PDict)
    (hany : (m.map Prod.fst).any (fun k0 => pyKeyEq k0 k) = true) :
    pmGet? (m.map (fun p => if pyKeyEq p.1 k then (p.1, v) else p)) k = some v := by
  induction m with
  | nil => simp at hany
  | cons p rest ih =>
    simp only [List.map_cons]
    by_cases hp : pyKeyEq p.1 k = true
    · rw [if_pos hp]
      simp [pmGet?, hp]
    · rw [if_neg hp]
      simp only [pmGet?, hp, Bool.false_eq_true, if_false]
      apply ih
      simp only [List.map_cons, List.any_cons, hp, Bool.false_or] at hany
      exact hany

theorem pmGet?_append_single (m : PMap) (k : PVal) (v : PDict)
    (hnone : ∀ q ∈ m, pyKeyEq q.1 k = false)
    (hrefl : pyKeyEq k k = true) :
    pmGet? (m ++ [(k, v)]) k = some v := by
  induction m with
  | nil => simp [pmGet?, hrefl]
  | cons p rest ih =>
    have hp := hnone p (List.mem_cons_self _ _)
    simp only [List.cons_append, pmGet?, hp, Bool.false_eq_true, if_false]
    exact ih (fun q hq => hnone q (List.mem_cons_of_mem _ hq))

theorem pmGet?_eq_none_of_all_ne (m : PMap) (k : PVal)
    (hnone : ∀ q ∈ m, pyKeyEq q.1 k = false) :
    pmGet? m k = none := by
  induction m with
  | nil => rfl
  | cons p rest ih =>
    have hp := hnone p (List.mem_cons_self _ _)
    simp only [pmGet?, hp, Bool.false_eq_true, if_false]
    exact ih (fun q hq => hnone q (List.mem_cons_of_mem _ hq))

theorem pmGet?_isSome_of_mem (m : PMap) (p : PVal × PDict) (hmem : p ∈ m)
    (hrefl : pyKeyEq p.1 p.1 = true) :
    ∃ v, pmGet? m p.1 = some v := by
  induction m with
  | nil => simp at hmem
  | cons q rest ih =>
    by_cases hq : pyKeyEq q.1 p.1 = true
    · exact ⟨q.2, by simp [pmGet?, hq]⟩
    · rcases List.mem_cons.mp hmem with h1 | h2
      · subst h1
        exact absurd hrefl hq
      · simp only [pmGet?, hq, Bool.false_eq_true, if_false]
        exact ih h2

/-- Writing a key that is not yet present, while the dict has strictly
fewer entries than its maximum, appends the entry without eviction. -/
theorem fsod_setitem_fresh_no_evict (d : FixSizeOrderedDict) (k : PVal) (v : PDict)
    (hfresh : ∀ q ∈ d.entries, pyKeyEq q.1 k = false)
    (hlen : d.entries.length + 1 ≤ d.max_size) :
    (d.setitem k v).entries = d.entries ++ [(k, v)] ∧
    (d.setitem k v).max_size = d.max_size := by
  unfold FixSizeOrderedDict.setitem
  have hany : (d.entries.map Prod.fst).any (fun k0 => pyKeyEq k0 k) = false := by
    rw [List.any_eq_false]
    intro x hx
    obtain ⟨q, hq, rfl⟩ := List.mem_map.mp hx
    simp [hfresh q hq]
  simp only [hany, Bool.false_eq_true, if_false]
  have hnoev : ¬ (0 < d.max_size ∧ d.max_size < (d.entries ++ [(k, v)]).length) := by
    rintro ⟨_, hlt⟩
    simp only [List.length_append, List.length_singleton] at hlt
    omega
  rw [if_neg hnoev]
  exact ⟨by trivial, by trivial⟩

/-- Writing an already-present key replaces the record in place: the key
sequence (set, order and count) of the dict is unchanged. -/
theorem fsod_setitem_present_keys (d : FixSizeOrderedDict) (k : PVal) (v : PDict)
    (hpresent : (d.entries.map Prod.fst).any (fun k0 => pyKeyEq k0 k) = true)
    (hlen : d.entries.length ≤ d.max_size) :
    (d.setitem k v).entries.map Prod.fst = d.entries.map Prod.fst ∧
    (d.setitem k v).entries.length = d.entries.length ∧
    (d.setitem k v).max_size = d.max_size := by
  unfold FixSizeOrderedDict.setitem
  simp only [hpresent, if_true]
  have hkeys : (d.entries.map (fun p => if pyKeyEq p.1 k then (p.1, v) else p)).map Prod.fst
      = d.entries.map Prod.fst := by
    rw [List.map_map]
    apply List.map_congr_left
    intro p _
    by_cases hp : pyKeyEq p.1 k = true <;> simp [hp]
  have hlen2 : (d.entries.map (fun p => if pyKeyEq p.1 k then (p.1, v) else p)).length
      = d.entries.length := List.length_map _ _
  have hnoev : ¬ (0 < d.max_size ∧ d.max_size <
      (d.entries.map (fun p => if pyKeyEq p.1 k then (p.1, v) else p)).length) := by
    rintro ⟨_, hlt⟩
    rw [hlen2] at hlt
    omega
  rw [if_neg hnoev]
  exact ⟨hkeys, hlen2, by trivial⟩

/-- After `setitem k v` on a well-sized dict, looking `k` up yields `v`
(whether the key was fresh, present, or the write caused an eviction). -/
theorem fsod_setitem_get_self (d : FixSizeOrderedDict) (k : PVal) (v : PDict)
    (hrefl : pyKeyEq k k = true)
    (hlen : d.entries.length ≤ d.max_size) :
    (d.setitem k v).get? k = some v := by
  unfold FixSizeOrderedDict.setitem FixSizeOrderedDict.get?
  by_cases hmem : (d.entries.map Prod.fst).any (fun k0 => pyKeyEq k0 k) = true
  · rw [if_pos hmem]
    dsimp only
    have hnoev : ¬ (0 < d.max_size ∧ d.max_size <
        (d.entries.map (fun p => if pyKeyEq p.1 k then (p.1, v) else p)).length) := by
      rintro ⟨_, hlt⟩
      rw [List.length_map] at hlt
      omega
    rw [if_neg hnoev]
    exact pmGet?_map_replace d.entries k v hmem
  · rw [if_neg hmem]
    dsimp only
    have hfresh : ∀ q ∈ d.entries, pyKeyEq q.1 k = false := by
      intro q hq
      by_contra hcon
      apply hmem
      rw [List.any_eq_true]
      refine ⟨q.1, List.mem_map_of_mem _ hq, ?_⟩
      revert hcon
      cases pyKeyEq q.1 k <;> simp
    by_cases hev : 0 < d.max_size ∧ d.max_size < (d.entries ++ [(k, v)]).length
    · rw [if_pos hev]
      cases hentries : d.entries with
      | nil =>
        rcases hev with ⟨hpos, hlt⟩
        rw [hentries] at hlt
        simp at hlt
        omega
      | cons p rest =>
        simp only [List.cons_append, List.tail_cons]
        exact pmGet?_append_single rest k v
          (fun q hq => hfresh q (by rw [hentries]; exact List.mem_cons_of_mem _ hq)) hrefl
    · rw [if_neg hev]
      exact pmGet?_append_single d.entries k v hfresh hrefl

/-- Writing a fresh key to a dict that is exactly full appends the entry
and then evicts the oldest-inserted entry. -/
theorem fsod_setitem_fresh_evict (d : FixSizeOrderedDict) (k : PVal) (v : PDict)
    (hfresh : ∀ q ∈ d.entries, pyKeyEq q.1 k = false)
    (hlen : d.entries.length = d.max_size) (hpos : 0 < d.max_size) :
    (d.setitem k v).entries = (d.entries ++ [(k, v)]).tail := by
  unfold FixSizeOrderedDict.setitem
  have hany : (d.entries.map Prod.fst).any (fun k0 => pyKeyEq k0 k) = false := by
    rw [List.any_eq_false]
    intro x hx
    obtain ⟨q, hq, rfl⟩ := List.mem_map.mp hx
    simp [hfresh q hq]
  simp only [hany, Bool.false_eq_true, if_false]
  have hev : 0 < d.max_size ∧ d.max_size < (d.entries ++ [(k, v)]).length := by
    refine ⟨hpos, ?_⟩
    simp [hlen]
  rw [if_pos hev]


theorem addAllEvents_append (l : List (PVal × PDict)) :
    ∀ (m : SecspyEventStateMachine),
    (∀ p ∈ l, ∀ q ∈ m.events.entries, pyKeyEq q.1 p.1 = false) →
    l.Pairwise (fun p q => pyKeyEq p.1 q.1 = false) →
    m.events.entries.length + l.length ≤ m.events.max_size →
    (addAllEvents l m).events.entries = m.events.entries ++ l ∧
    (addAllEvents l m).events.max_size = m.events.max_size := by
  induction l with
  | nil =>
    intro m _ _ _
    simp [addAllEvents]
  | cons p rest ih =>
    intro m hfresh hpair hlen
    have hstep := fsod_setitem_fresh_no_evict m.events p.1 p.2
      (fun q hq => hfresh p (List.mem_cons_self _ _) q hq)
      (by simp only [List.length_cons] at hlen; omega)
    have hstep1 : (m.add p.1 p.2).events.entries = m.events.entries ++ [p] := by
      simpa [SecspyEventStateMachine.add] using hstep.1
    have hstep2 : (m.add p.1 p.2).events.max_size = m.events.max_size := by
      simpa [SecspyEventStateMachine.add] using hstep.2
    have hchain : addAllEvents (p :: rest) m = addAllEvents rest (m.add p.1 p.2) := by
      simp [addAllEvents]
    have hpc := List.pairwise_cons.mp hpair
    have hrest := ih (m.add p.1 p.2)
      (by
        intro p' hp' q hq
        rw [hstep1] at hq
        rcases List.mem_append.mp hq with h1 | h2
        · exact hfresh p' (List.mem_cons_of_mem _ hp') q h1
        · rw [List.mem_singleton.mp h2]
          exact hpc.1 p' hp')
      hpc.2
      (by
        rw [hstep1, hstep2, List.length_append]
        simp only [List.length_cons] at hlen
        simp only [List.length_singleton]
        omega)
    refine ⟨?_, ?_⟩
    · rw [hchain, hrest.1, hstep1, List.append_assoc]
      simp
    · rw [hchain, hrest.2, hstep2]

/-- C2: the event ledger has fixed capacity `2 × 256 = 512`, and adding
`capacity + 1` events with pairwise-distinct (hashable) ids to a fresh
ledger evicts exactly the first-inserted id in FIFO order: the stored
entries are exactly the ids after the first, in insertion order; an
`update` on the evicted first id returns `none`; an `update` on any other
id still returns a merged record. -/
theorem event_ledger_capacity_fifo_evicts_first
    (l : List (PVal × PDict)) (upd : PDict)
    (hlen : l.length = MAX_EVENT_HISTORY_IN_STATE_MACHINE + 1)
    (hpair : l.Pairwise (fun p q => pyKeyEq p.1 q.1 = false))
    (hrefl : ∀ p ∈ l, pyKeyEq p.1 p.1 = true) :
    SecspyEventStateMachine.init.events.max_size = MAX_SUPPORTED_CAMERAS * 2 ∧
    (addAllEvents l SecspyEventStateMachine.init).events.entries = l.tail ∧
    (∀ p0, l.head? = some p0 →
      ((addAllEvents l SecspyEventStateMachine.init).update p0.1 upd).2 = none) ∧
    (∀ p ∈ l.tail, ∃ merged,
      ((addAllEvents l SecspyEventStateMachine.init).update p.1 upd).2 = some merged) := by
  have hne : l ≠ [] := by
    intro h
    rw [h] at hlen
    exact absurd hlen.symm (by decide)
  have hsplit : l.dropLast ++ [l.getLast hne] = l := List.dropLast_append_getLast hne
  have hkslen : l.dropLast.length = MAX_EVENT_HISTORY_IN_STATE_MACHINE := by
    rw [List.length_dropLast, hlen]
    rfl
  have hpair2 : (l.dropLast ++ [l.getLast hne]).Pairwise
      (fun p q => pyKeyEq p.1 q.1 = false) := by
    rw [hsplit]
    exact hpair
  obtain ⟨hpks, _, hcross⟩ := List.pairwise_append.mp hpair2
  have haddks := addAllEvents_append l.dropLast SecspyEventStateMachine.init
    (by
      intro p _ q hq
      exact absurd hq (by simp [SecspyEventStateMachine.init]))
    hpks
    (by
      rw [hkslen]
      exact Nat.le_refl _)
  have hfinal : addAllEvents l SecspyEventStateMachine.init =
      (addAllEvents l.dropLast SecspyEventStateMachine.init).add
        (l.getLast hne).1 (l.getLast hne).2 := by
    conv_lhs => rw [← hsplit]
    simp [addAllEvents, List.foldl_append]
  have hmax : (addAllEvents l.dropLast SecspyEventStateMachine.init).events.max_size =
      MAX_EVENT_HISTORY_IN_STATE_MACHINE := haddks.2
  have hks : (addAllEvents l.dropLast SecspyEventStateMachine.init).events.entries =
      l.dropLast := by
    rw [haddks.1]
    rfl
  have hentries : (addAllEvents l SecspyEventStateMachine.init).events.entries = l.tail := by
    rw [hfinal]
    show ((addAllEvents l.dropLast SecspyEventStateMachine.init).events.setitem
      (l.getLast hne).1 (l.getLast hne).2).entries = l.tail
    rw [fsod_setitem_fresh_evict _ _ _
      (by
        intro q hq
        rw [hks] at hq
        exact hcross q hq _ (List.mem_singleton_self _))
      (by rw [hks, hmax, hkslen])
      (by rw [hmax]; decide)]
    rw [hks]
    conv_rhs => rw [← hsplit]
  refine ⟨rfl, hentries, ?_, ?_⟩
  · intro p0 hp0
    have hcons : p0 :: l.tail = l := List.cons_head?_tail hp0
    have htailrel : ∀ q ∈ l.tail, pyKeyEq q.1 p0.1 = false := by
      intro q hq
      rw [pyKeyEq_symm]
      exact (List.pairwise_cons.mp (hcons ▸ hpair)).1 q hq
    have hget : (addAllEvents l SecspyEventStateMachine.init).events.get? p0.1 = none := by
      unfold FixSizeOrderedDict.get?
      rw [hentries]
      exact pmGet?_eq_none_of_all_ne _ _ htailrel
    unfold SecspyEventStateMachine.update
    rw [hget]
  · intro p hp
    have hget : ∃ v, (addAllEvents l SecspyEventStateMachine.init).events.get? p.1 = some v := by
      unfold FixSizeOrderedDict.get?
      rw [hentries]
      exact pmGet?_isSome_of_mem _ p hp
        (hrefl p (List.mem_of_mem_tail hp))
    obtain ⟨v, hv⟩ := hget
    refine ⟨dmerge v upd, ?_⟩
    unfold SecspyEventStateMachine.update
    rw [hv]


set_option maxRecDepth 2000 in
/-- Witness for C2 at 513 concrete distinct ids. -/
theorem event_ledger_capacity_fifo_evicts_first_witness :
    c2WitnessList.length = MAX_EVENT_HISTORY_IN_STATE_MACHINE + 1 ∧
    c2WitnessList.Pairwise (fun p q => pyKeyEq p.1 q.1 = false) ∧
    (∀ p ∈ c2WitnessList, pyKeyEq p.1 p.1 = true) ∧
    (SecspyEventStateMachine.init.events.max_size = MAX_SUPPORTED_CAMERAS * 2 ∧
     (addAllEvents c2WitnessList SecspyEventStateMachine.init).events.entries =
       c2WitnessList.tail ∧
     (∀ p0, c2WitnessList.head? = some p0 →
       ((addAllEvents c2WitnessList SecspyEventStateMachine.init).update p0.1 []).2 = none) ∧
     (∀ p ∈ c2WitnessList.tail, ∃ merged,
       ((addAllEvents c2WitnessList SecspyEventStateMachine.init).update p.1 []).2 =
         some merged)) := by
  have pf1 : c2WitnessList.length = MAX_EVENT_HISTORY_IN_STATE_MACHINE + 1 := by
    unfold c2WitnessList
    rw [List.length_map, List.length_range]
  have pf2 : c2WitnessList.Pairwise (fun p q => pyKeyEq p.1 q.1 = false) := by
    unfold c2WitnessList
    rw [List.pairwise_map]
    refine List.Pairwise.imp ?_ (List.pairwise_lt_range _)
    intro i j hij
    refine pyKeyEq_vint_ne _ _ ?_
    intro hcast
    exact absurd (Int.ofNat.inj hcast) (Nat.ne_of_lt hij)
  have pf3 : ∀ p ∈ c2WitnessList, pyKeyEq p.1 p.1 = true := by
    intro p hp
    obtain ⟨i, -, rfl⟩ := List.mem_map.mp hp
    exact pyKeyEq_vint_refl _
  exact ⟨pf1, pf2, pf3,
    event_ledger_capacity_fifo_evicts_first c2WitnessList [] pf1 pf2 pf3⟩

/-- C5: for any prior ledger state within capacity, `add(id, A)` followed
by `update(id, B)` with `A`/`B` having disjoint key sets returns a merged
record carrying every field of `A`, every field of `B`, and in particular
the `start` value given at `add`. -/
theorem event_add_then_update_merges_disjoint_fields
    (m : SecspyEventStateMachine) (id : PVal) (A B : PDict)
    (hrefl : pyKeyEq id id = true)
    (hlen : m.events.entries.length ≤ m.events.max_size)
    (hdisj : ∀ k ∈ dkeys A, ¬ k ∈ dkeys B)
    (hB : (dkeys B).Nodup)
    (hstart : "start" ∈ dkeys A) :
    ∃ merged, ((m.add id A).update id B).2 = some merged ∧
      (∀ k ∈ dkeys A, dget? merged k = dget? A k) ∧
      (∀ k ∈ dkeys B, dget? merged k = dget? B k) ∧
      dget? merged "start" = dget? A "start" := by
  have hget : (m.add id A).events.get? id = some A :=
    fsod_setitem_get_self m.events id A hrefl hlen
  refine ⟨dmerge A B, ?_, ?_, ?_, ?_⟩
  · unfold SecspyEventStateMachine.update
    rw [hget]
  · intro k hk
    exact dget?_dmerge_not_mem A B k (hdisj k hk)
  · intro k hk
    exact dget?_dmerge_right A B k hB hk
  · exact dget?_dmerge_not_mem A B "start" (hdisj _ hstart)

/-- Witness for C5: a concrete `motion`-style add followed by an end
update on a fresh ledger. -/
theorem event_add_then_update_merges_disjoint_fields_witness :
    pyKeyEq (PVal.vstr "e1") (PVal.vstr "e1") = true ∧
    SecspyEventStateMachine.init.events.entries.length ≤
      SecspyEventStateMachine.init.events.max_size ∧
    (∀ k ∈ dkeys [("start", PVal.vstr "100"), ("camera", PVal.vstr "1")],
      ¬ k ∈ dkeys [("end", PVal.vstr "200")]) ∧
    (dkeys [("end", PVal.vstr "200")]).Nodup ∧
    "start" ∈ dkeys [("start", PVal.vstr "100"), ("camera", PVal.vstr "1")] ∧
    (∃ merged,
      ((SecspyEventStateMachine.init.add (.vstr "e1")
          [("start", PVal.vstr "100"), ("camera", PVal.vstr "1")]).update
        (.vstr "e1") [("end", PVal.vstr "200")]).2 = some merged ∧
      (∀ k ∈ dkeys [("start", PVal.vstr "100"), ("camera", PVal.vstr "1")],
        dget? merged k = dget? [("start", PVal.vstr "100"), ("camera", PVal.vstr "1")] k) ∧
      (∀ k ∈ dkeys [("end", PVal.vstr "200")],
        dget? merged k = dget? [("end", PVal.vstr "200")] k) ∧
      dget? merged "start" =
        dget? [("start", PVal.vstr "100"), ("camera", PVal.vstr "1")] "start") :=
  ⟨by decide, by decide, by decide, by decide, by decide,
    event_add_then_update_merges_disjoint_fields SecspyEventStateMachine.init
      (.vstr "e1") [("start", PVal.vstr "100"), ("camera", PVal.vstr "1")]
      [("end", PVal.vstr "200")]
      (by decide) (by decide) (by decide) (by decide) (by decide)⟩

/-- C6 counterexample: `add` on an id that is already present does
overwrite the stored record (the second `add` replaces `{a: 1}` by
`{b: 2}`), contradicting "inserts only if absent". -/
theorem event_add_overwrite_counterexample :
    (((SecspyEventStateMachine.init.add (.vstr "1") [("a", .vint 1)]).add
        (.vstr "1") [("b", .vint 2)]).events.get? (.vstr "1") =
      some [("b", .vint 2)]) ∧
    ([("b", PVal.vint 2)] : PDict) ≠ [("a", PVal.vint 1)] :=
  ⟨rfl, by decide⟩

/-- C6 amended: `add(id, fields)` stores `fields` for `id`
unconditionally — when the id is already present, the stored record is
overwritten (keeping the id's ledger position). -/
theorem event_add_stores_unconditionally
    (m : SecspyEventStateMachine) (id : PVal) (fields : PDict)
    (hrefl : pyKeyEq id id = true)
    (hlen : m.events.entries.length ≤ m.events.max_size) :
    (m.add id fields).events.get? id = some fields :=
  fsod_setitem_get_self m.events id fields hrefl hlen

/-- Witness for the amended C6: the overwriting second `add` of the
counterexample indeed stores the new record. -/
theorem event_add_stores_unconditionally_witness :
    pyKeyEq (PVal.vstr "1") (PVal.vstr "1") = true ∧
    (SecspyEventStateMachine.init.add (.vstr "1")
        [("a", .vint 1)]).events.entries.length ≤
      (SecspyEventStateMachine.init.add (.vstr "1") [("a", .vint 1)]).events.max_size ∧
    ((SecspyEventStateMachine.init.add (.vstr "1") [("a", .vint 1)]).add
        (.vstr "1") [("b", .vint 2)]).events.get? (.vstr "1") = some [("b", .vint 2)] :=
  ⟨by decide, by decide,
    event_add_stores_unconditionally
      (SecspyEventStateMachine.init.add (.vstr "1") [("a", .vint 1)])
      (.vstr "1") [("b", .vint 2)] (by decide) (by decide)⟩

/-- C10: calling `add` again for an id already present in the ledger
leaves the sequence of stored ids — the id set, the ledger size and every
id's FIFO position — unchanged; in particular nothing is evicted even at
full capacity. -/
theorem event_add_present_id_keeps_ids
    (m : SecspyEventStateMachine) (id : PVal) (fields : PDict)
    (hpresent : (m.events.entries.map Prod.fst).any (fun k0 => pyKeyEq k0 id) = true)
    (hlen : m.events.entries.length ≤ m.events.max_size) :
    (m.add id fields).events.entries.map Prod.fst = m.events.entries.map Prod.fst ∧
    (m.add id fields).events.entries.length = m.events.entries.length := by
  have h := fsod_setitem_present_keys m.events id fields hpresent hlen
  exact ⟨h.1, h.2.1⟩

/-- Witness for C10 at a concrete one-entry ledger. -/
theorem event_add_present_id_keeps_ids_witness :
    (((SecspyEventStateMachine.init.add (.vstr "1")
        [("a", .vint 1)]).events.entries.map Prod.fst).any
      (fun k0 => pyKeyEq k0 (.vstr "1")) = true) ∧
    (SecspyEventStateMachine.init.add (.vstr "1")
        [("a", .vint 1)]).events.entries.length ≤
      (SecspyEventStateMachine.init.add (.vstr "1") [("a", .vint 1)]).events.max_size ∧
    (((SecspyEventStateMachine.init.add (.vstr "1") [("a", .vint 1)]).add
        (.vstr "1") [("b", .vint 2)]).events.entries.map Prod.fst =
      (SecspyEventStateMachine.init.add (.vstr "1")
        [("a", .vint 1)]).events.entries.map Prod.fst ∧
     ((SecspyEventStateMachine.init.add (.vstr "1") [("a", .vint 1)]).add
        (.vstr "1") [("b", .vint 2)]).events.entries.length =
      (SecspyEventStateMachine.init.add (.vstr "1")
        [("a", .vint 1)]).events.entries.length) :=
  ⟨by decide, by decide,
    event_add_present_id_keeps_ids
      (SecspyEventStateMachine.init.add (.vstr "1") [("a", .vint 1)])
      (.vstr "1") [("b", .vint 2)] (by decide) (by decide)⟩

/-!  Helper lemmas about `process_message` dispatch. -/

theorem list_shape_of_get3 (l : List String) (t3 : String) (h : l.get? 3 = some t3) :
    ∃ a b c rest, l = a :: b :: c :: t3 :: rest := by
  match l, h with
  | a :: b :: c :: d :: rest, h =>
    refine ⟨a, b, c, rest, ?_⟩
    have hd : d = t3 := by
      simpa [List.get?] using h
    rw [hd]

/-- Every camera-targeted action is dropped inside `_camera_from_updates`:
the `action_json` it receives holds the key `"modelkey"` but the function
subscripts `"modelKey"`, raising `KeyError` before any state is touched. -/
theorem camera_branch_raises (s : St) (now : Int) (t2 : String) (dj : PDict) :
    process_camera_updates s now
      [("modelkey", PVal.vstr KEY_CAMERA), ("id", PVal.vstr t2)] dj =
      (s, .error .keyError) := rfl

/-- C7 (amended): a stream line whose 14-character prefix fails the
`isnumeric` guard (stated for Latin-1 prefixes, on which `pyCharIsNumeric`
is the exact Unicode numeric table), or that splits into fewer than four
tokens, or whose action code is in neither the camera-action nor the
event-action set, is dropped silently: the whole client state (both
ledgers, the projected data, the stream bookkeeping) is unchanged and no
subscriber callback fires.  The original claim fails for lines whose
prefix is Unicode-numeric yet not a parseable timestamp: those pass the
real guard and mutate the event ledger before the timestamp parse raises —
see the counterexample below. -/
theorem malformed_line_dropped_silently (s : St) (now : Int) (data : String)
    (_hlat : latin1Only (data.take 14) = true)
    (h : pyIsNumeric (data.take 14) = false ∨
      (pySplitSpace data).length < 4 ∨
      (∀ t3, (pySplitSpace data).get? 3 = some t3 →
        CAMERA_MESSAGES.contains t3 = false ∧ EVENT_MESSAGES.contains t3 = false)) :
    process_message s now data = (s, []) := by
  unfold process_message
  by_cases hnum : pyIsNumeric (data.take 14) = true
  · rw [if_pos hnum]
    cases hsplit : pySplitSpace data with
    | nil => rfl
    | cons t0 rest0 =>
      cases rest0 with
      | nil => rfl
      | cons t1 rest1 =>
        cases rest1 with
        | nil => rfl
        | cons t2 rest2 =>
          cases rest2 with
          | nil => rfl
          | cons t3 rest =>
            rcases h with h1 | h2 | h3
            · rw [hnum] at h1
              cases h1
            · rw [hsplit] at h2
              simp at h2
              omega
            · obtain ⟨hc, he⟩ := h3 t3 (by rw [hsplit]; rfl)
              have hpt : process_tokens s now t0 t1 t2 t3 rest = (s, .ok []) := by
                unfold process_tokens
                simp only [hc, he, Bool.false_eq_true, if_false]
              dsimp only
              rw [hpt]
  · rw [if_neg hnum]

/-- Witness for C7: an unknown action code on a well-formed line. -/
theorem malformed_line_dropped_silently_witness :
    latin1Only (("20190927092026 1 3 BOGUS" : String).take 14) = true ∧
    ((pyIsNumeric (("20190927092026 1 3 BOGUS" : String).take 14) = false ∨
      (pySplitSpace "20190927092026 1 3 BOGUS").length < 4 ∨
      (∀ t3, (pySplitSpace "20190927092026 1 3 BOGUS").get? 3 = some t3 →
        CAMERA_MESSAGES.contains t3 = false ∧ EVENT_MESSAGES.contains t3 = false))) ∧
    process_message (St.init ⟨"h", 8000, "tok"⟩) 100 "20190927092026 1 3 BOGUS" =
      (St.init ⟨"h", 8000, "tok"⟩, []) := by
  have hyp : (pyIsNumeric (("20190927092026 1 3 BOGUS" : String).take 14) = false ∨
      (pySplitSpace "20190927092026 1 3 BOGUS").length < 4 ∨
      (∀ t3, (pySplitSpace "20190927092026 1 3 BOGUS").get? 3 = some t3 →
        CAMERA_MESSAGES.contains t3 = false ∧ EVENT_MESSAGES.contains t3 = false)) := by
    refine Or.inr (Or.inr ?_)
    intro t3 ht3
    have ht3' : some "BOGUS" = some t3 := ht3
    cases ht3'
    exact ⟨rfl, rfl⟩
  exact ⟨rfl, hyp, malformed_line_dropped_silently (St.init ⟨"h", 8000, "tok"⟩) 100
    "20190927092026 1 3 BOGUS" rfl hyp⟩

set_option maxRecDepth 4000 in
/-- C7 counterexample: the line whose prefix is fourteen SUPERSCRIPT TWO
characters passes the real `str.isnumeric` guard (² is Unicode-numeric),
takes the MOTION branch, and the event ledger stores event "3" before the
timestamp parse raises ValueError into the bare except — the line is
dropped silently (no subscriber fires, the projected data is unchanged)
but the event ledger IS mutated, refuting the claim that malformed lines
leave the whole state untouched. -/
theorem numeric_prefix_line_mutates_event_ledger :
    pyIsNumeric (c7line.take 14) = true ∧
    (process_message (St.init ⟨"h", 8000, "tok"⟩) 100 c7line).2 = [] ∧
    (process_message (St.init ⟨"h", 8000, "tok"⟩) 100 c7line).1.processed_data = [] ∧
    pmHas (process_message (St.init ⟨"h", 8000, "tok"⟩) 100
      c7line).1.event_state_machine.events.entries (.vstr "3") = true ∧
    pmHas (St.init ⟨"h", 8000,
      "tok"⟩).event_state_machine.events.entries (.vstr "3") = false :=
  ⟨rfl, rfl, rfl, rfl, rfl⟩

/-- C8: a camera-targeted stream action (ARM/DISARM) whose camera id is
absent from the device ledger leaves the client state untouched and fires
no subscriber: no device-ledger entry is created and the projected data is
unchanged.  (In this code base every camera-targeted line is dropped by
the `KeyError` described at `camera_branch_raises`, so in particular the
unknown-camera case creates nothing.) -/
theorem unknown_camera_stream_update_skipped (s : St) (now : Int) (data : String)
    (t2 t3 : String)
    (h2 : (pySplitSpace data).get? 2 = some t2)
    (h3 : (pySplitSpace data).get? 3 = some t3)
    (hcam : CAMERA_MESSAGES.contains t3 = true)
    (hdev : s.device_state_machine.has_device (.vstr t2) = false) :
    process_message s now data = (s, []) ∧
    (process_message s now data).1.device_state_machine.has_device (.vstr t2) = false := by
  have hmain : process_message s now data = (s, []) := by
    unfold process_message
    by_cases hnum : pyIsNumeric (data.take 14) = true
    · rw [if_pos hnum]
      obtain ⟨a, b, c, rest, hsplit⟩ := list_shape_of_get3 _ _ h3
      have hc : c = t2 := by
        rw [hsplit] at h2
        simpa [List.get?] using h2
      subst hc
      rw [hsplit]
      dsimp only
      have hpt : process_tokens s now a b c t3 rest = (s, .error .keyError) := by
        unfold process_tokens
        rw [if_pos hcam]
        exact camera_branch_raises s now c _
      rw [hpt]
    · rw [if_neg hnum]
  exact ⟨hmain, by rw [hmain]; exact hdev⟩

/-- Witness for C8: an `ARM_A` line for camera "7" on a fresh client whose
device ledger is empty. -/
theorem unknown_camera_stream_update_skipped_witness :
    (pySplitSpace "20190927092026 1 7 ARM_A").get? 2 = some "7" ∧
    (pySplitSpace "20190927092026 1 7 ARM_A").get? 3 = some "ARM_A" ∧
    CAMERA_MESSAGES.contains "ARM_A" = true ∧
    (St.init ⟨"h", 8000, "tok"⟩).device_state_machine.has_device (.vstr "7") = false ∧
    (process_message (St.init ⟨"h", 8000, "tok"⟩) 100 "20190927092026 1 7 ARM_A" =
      (St.init ⟨"h", 8000, "tok"⟩, []) ∧
     (process_message (St.init ⟨"h", 8000, "tok"⟩) 100
        "20190927092026 1 7 ARM_A").1.device_state_machine.has_device (.vstr "7") = false) :=
  ⟨rfl, rfl, rfl, rfl,
    unknown_camera_stream_update_skipped (St.init ⟨"h", 8000, "tok"⟩) 100
      "20190927092026 1 7 ARM_A" "7" "ARM_A" rfl rfl rfl rfl⟩

/-!  Helper lemmas for the motion lifecycle resolver. -/

theorem dgetPy_eq_of_dget?_some (d : PDict) (k : String) (v : PVal)
    (h : dget? d k = some v) : dgetPy d k = v := by
  induction d with
  | nil => cases h
  | cons q rest ih =>
    unfold dget? at h
    unfold dgetPy
    by_cases hq : q.1 = k
    · rw [if_pos hq] at h ⊢
      injection h
    · rw [if_neg hq] at h ⊢
      exact ih h

theorem dgetPy_eq_vnone_of_dget?_none (d : PDict) (k : String)
    (h : dget? d k = none) : dgetPy d k = .vnone := by
  induction d with
  | nil => rfl
  | cons q rest ih =>
    unfold dget? at h
    unfold dgetPy
    by_cases hq : q.1 = k
    · rw [if_pos hq] at h
      cases h
    · rw [if_neg hq] at h ⊢
      exact ih h

/-- Characterisation of the `event_on` field computed by
`_process_event_data`: whenever the resolver returns a processed record,
its `event_on` is the conjunction "type is motion or smartDetectZone" and
"the `end` value is falsy". -/
theorem process_event_data_event_on_char (r p : PDict)
    (h : process_event_data r = .ok p) :
    dget? p "event_on" = some (.vbool
      ((pyKeyEq (dgetPy r "type") (.vstr EVENT_MOTION) ||
        pyKeyEq (dgetPy r "type") (.vstr EVENT_SMART_DETECT_ZONE)) &&
       !pyTruthy (dgetPy r "end"))) := by
  unfold process_event_data at h
  dsimp only at h
  split at h
  · cases h
  · split at h
    · cases h
    · split at h
      · rename_i htype
        split at h
        · rename_i hnotend
          injection h with h1
          subst h1
          rw [dget?_dset_self]
          have hf : pyTruthy (dgetPy r "end") = false := by
            revert hnotend
            cases pyTruthy (dgetPy r "end") <;> simp
          rw [htype, hf]
          rfl
        · rename_i hendT
          injection h with h1
          subst h1
          have ht : pyTruthy (dgetPy r "end") = true := by
            revert hendT
            cases pyTruthy (dgetPy r "end") <;> simp
          rw [dget?_dset_ne _ _ _ _ (by decide), htype, ht]
          rfl
      · rename_i htypeF
        injection h with h1
        subst h1
        have hf : (pyKeyEq (dgetPy r "type") (.vstr EVENT_MOTION) ||
            pyKeyEq (dgetPy r "type") (.vstr EVENT_SMART_DETECT_ZONE)) = false := by
          revert htypeF
          cases pyKeyEq (dgetPy r "type") (.vstr EVENT_MOTION) ||
            pyKeyEq (dgetPy r "type") (.vstr EVENT_SMART_DETECT_ZONE) <;> simp
        rw [hf]
        rfl

/-- C9: for every merged event record whose `end` value, when present, is
truthy (every `end` the stream writes is a nonempty digit string), the
resolver sets `event_on` to `true` iff the record's type is motion or
smartDetectZone and no `end` field is present; and as soon as a (truthy)
`end` is present — also after further merges that keep it — the recomputed
`event_on` is `false`. -/
theorem event_on_iff_motion_without_end (r p : PDict)
    (hend : ∀ e, dget? r "end" = some e → pyTruthy e = true)
    (h : process_event_data r = .ok p) :
    (dget? p "event_on" = some (.vbool true) ↔
      ((dgetPy r "type" = .vstr EVENT_MOTION ∨ dgetPy r "type" = .vstr EVENT_SMART_DETECT_ZONE) ∧
        dget? r "end" = none)) ∧
    (dget? r "end" ≠ none → dget? p "event_on" = some (.vbool false)) ∧
    (∀ extra p' e', process_event_data (dmerge r extra) = .ok p' →
      dget? (dmerge r extra) "end" = some e' → pyTruthy e' = true →
      dget? p' "event_on" = some (.vbool false)) := by
  have hchar := process_event_data_event_on_char r p h
  have htype : ∀ x : PVal, pyKeyEq x (.vstr EVENT_MOTION) = true ↔ x = .vstr EVENT_MOTION := by
    intro x
    cases x <;> simp [pyKeyEq, EVENT_MOTION]
  have htype2 : ∀ x : PVal, pyKeyEq x (.vstr EVENT_SMART_DETECT_ZONE) = true ↔
      x = .vstr EVENT_SMART_DETECT_ZONE := by
    intro x
    cases x <;> simp [pyKeyEq, EVENT_SMART_DETECT_ZONE]
  refine ⟨?_, ?_, ?_⟩
  · rw [hchar]
    constructor
    · intro hon
      have hb : ((pyKeyEq (dgetPy r "type") (.vstr EVENT_MOTION) ||
          pyKeyEq (dgetPy r "type") (.vstr EVENT_SMART_DETECT_ZONE)) &&
          !pyTruthy (dgetPy r "end")) = true := by
        injection hon with h1
        injection h1
      rw [Bool.and_eq_true, Bool.or_eq_true, Bool.not_eq_eq_eq_not] at hb
      refine ⟨?_, ?_⟩
      · rcases hb.1 with h1 | h1
        · exact Or.inl ((htype _).mp h1)
        · exact Or.inr ((htype2 _).mp h1)
      · cases hendcase : dget? r "end" with
        | none => rfl
        | some e =>
          have htr := hend e hendcase
          have hfalsy : pyTruthy (dgetPy r "end") = false := by
            simpa using hb.2
          have hPy : dgetPy r "end" = e := dgetPy_eq_of_dget?_some r "end" e hendcase
          rw [hPy, htr] at hfalsy
          cases hfalsy
    · rintro ⟨h1, h2⟩
      have hPyNone : dgetPy r "end" = .vnone := dgetPy_eq_vnone_of_dget?_none r "end" h2
      rcases h1 with h1 | h1
      · rw [h1, hPyNone]
        simp [pyKeyEq, pyTruthy]
      · rw [h1, hPyNone]
        simp [pyKeyEq, pyTruthy]
  · intro hne
    cases hendcase : dget? r "end" with
    | none => exact absurd hendcase hne
    | some e =>
      have htr := hend e hendcase
      have hPy : dgetPy r "end" = e := dgetPy_eq_of_dget?_some r "end" e hendcase
      rw [hchar, hPy, htr]
      simp
  · intro extra p' e' h' hmergeEnd htr
    have hchar' := process_event_data_event_on_char (dmerge r extra) p'
    have hPy : dgetPy (dmerge r extra) "end" = e' :=
      dgetPy_eq_of_dget?_some (dmerge r extra) "end" e' hmergeEnd
    rw [hchar' h', hPy, htr]
    simp

/-- Witness for C9 on a concrete open motion record and its closing merge. -/
theorem event_on_iff_motion_without_end_witness :
    (∀ e, dget? [("type", PVal.vstr "motion"), ("start", PVal.vstr "20190927092026")] "end" =
      some e → pyTruthy e = true) ∧
    (∃ p, process_event_data
        [("type", PVal.vstr "motion"), ("start", PVal.vstr "20190927092026")] = .ok p ∧
      dget? p "event_on" = some (.vbool true)) := by
  have hend : ∀ e, dget? [("type", PVal.vstr "motion"),
      ("start", PVal.vstr "20190927092026")] "end" = some e → pyTruthy e = true := by
    intro e he
    cases he
  have hok : process_event_data
      [("type", PVal.vstr "motion"), ("start", PVal.vstr "20190927092026")] =
      .ok [("event_on", .vbool true), ("event_type", .vstr "motion"),
        ("event_start", .vstr "2019-09-27 09:20:26"), ("event_length", .vint 0),
        ("event_object", .vstr "None"), ("event_score_human", .vint 0),
        ("event_score_vehicle", .vint 0), ("event_score_animal", .vint 0),
        ("event_online", .vnone), ("last_motion", .vstr "2019-09-27 09:20:26")] := by
    rfl
  refine ⟨hend, ⟨_, hok, ?_⟩⟩
  have hiff := (event_on_iff_motion_without_end _ _ hend hok).1
  exact hiff.mpr ⟨Or.inl rfl, rfl⟩

/-!  Helper lemmas and theorems for the CLASSIFY resolution (C3). -/

theorem pmGet?_pmSet_self (m : PMap) (k : PVal) (v : PDict)
    (hrefl : pyKeyEq k k = true) :
    pmGet? (pmSet m k v) k = some v := by
  induction m with
  | nil => simp [pmSet, pmGet?, hrefl]
  | cons p rest ih =>
    by_cases hp : pyKeyEq p.1 k = true
    · simp [pmSet, pmGet?, hp]
    · simp [pmSet, pmGet?, hp, ih]

theorem pmGet?_pmSetdefaultUpdate_self (m : PMap) (k : PVal) (u : PDict)
    (hrefl : pyKeyEq k k = true) :
    pmGet? (pmSetdefaultUpdate m k u) k =
      some (dmerge ((pmGet? m k).getD []) u) := by
  unfold pmSetdefaultUpdate
  cases h : pmGet? m k <;> simp [h, pmGet?_pmSet_self _ _ _ hrefl]

/-- The `finally` block of the `CLASSIFY` branch on three string scores:
no comparison can raise, and the resulting reason code is the sequential
last-write: "512" when the animal score is strictly greatest (string
order), else "256" when the vehicle score is, else "128" when the human
score is, else the object set by the `try` body. -/
theorem classifyObject_vstr (obj0 : PVal) (h v a : String) :
    classifyObject obj0 (.vstr h) (.vstr v) (.vstr a) =
      (if pyStrLtB h a && pyStrLtB v a then PVal.vstr "512"
       else if pyStrLtB h v && pyStrLtB a v then PVal.vstr "256"
       else if pyStrLtB v h && pyStrLtB a h then PVal.vstr "128"
       else obj0, none) := by
  unfold classifyObject pyAndGt pyGtB
  cases hvh : pyStrLtB v h <;> cases hah : pyStrLtB a h <;>
    cases hhv : pyStrLtB h v <;> cases hav : pyStrLtB a v <;>
      cases hha : pyStrLtB h a <;> cases hva : pyStrLtB v a <;>
        simp [Bind.bind, Except.bind, pure, Except.pure, hvh, hah, hhv, hav, hha, hva]

/-- The resolver's output on a `CLASSIFY` `data_json` with a valid start
stamp: an open motion record whose `event_object` is the decoded reason. -/
theorem process_event_data_classify_dj (t0 t2 : String) (reasonv hv vv av : PVal)
    (hts : strptimeValid t0 = true) (ht0 : t0 ≠ "") :
    process_event_data (classifyDJ t0 t2 reasonv hv vv av) =
      .ok [("event_on", .vbool true), ("event_type", .vstr "motion"),
        ("event_start", .vstr (strSlice t0 0 4 ++ "-" ++ strSlice t0 4 6 ++ "-" ++
          strSlice t0 6 8 ++ " " ++ strSlice t0 8 10 ++ ":" ++ strSlice t0 10 12 ++ ":" ++
          strSlice t0 12 14)),
        ("event_length", .vint 0),
        ("event_object", match REASON_CODES_get reasonv with
          | some x => PVal.vstr x
          | none => PVal.vstr "None"),
        ("event_score_human", if pyTruthy hv then hv else .vint 0),
        ("event_score_vehicle", if pyTruthy vv then vv else .vint 0),
        ("event_score_animal", if pyTruthy av then av else .vint 0),
        ("event_online", .vbool true),
        ("last_motion", .vstr (strSlice t0 0 4 ++ "-" ++ strSlice t0 4 6 ++ "-" ++
          strSlice t0 6 8 ++ " " ++ strSlice t0 8 10 ++ ":" ++ strSlice t0 10 12 ++ ":" ++
          strSlice t0 12 14))] := by
  have hstart : pyTruthy (PVal.vstr t0) = true := by simp [pyTruthy, ht0]
  have hfmt : process_timestamp (PVal.vstr t0) = .ok (strSlice t0 0 4 ++ "-" ++
      strSlice t0 4 6 ++ "-" ++ strSlice t0 6 8 ++ " " ++ strSlice t0 8 10 ++ ":" ++
      strSlice t0 10 12 ++ ":" ++ strSlice t0 12 14) := by
    unfold process_timestamp
    dsimp only
    rw [if_pos hts]
  simp [classifyDJ, process_event_data, dgetPy, hstart, hfmt, pyTruthy, pyKeyEq, dset,
    EVENT_MOTION, ht0, hts]

/-- Routing a `CLASSIFY` "add" action through the event pipeline fires one
subscriber notification for camera `t2` whose merged snapshot carries the
decoded `event_object`. -/
theorem process_event_updates_classify (s1 : St) (t0 t2 : String) (reasonv : PVal)
    (hv vv av : PVal) (hts : strptimeValid t0 = true) (ht0 : t0 ≠ "") :
    ∃ snap,
      (process_event_updates s1 (classifyAJ t2) (classifyDJ t0 t2 reasonv hv vv av)).2 =
        .ok [(.vstr t2, snap)] ∧
      dget? snap "event_object" =
        some (match REASON_CODES_get reasonv with
          | some x => PVal.vstr x
          | none => PVal.vstr "None") := by
  have hpd := process_event_data_classify_dj t0 t2 reasonv hv vv av hts ht0
  have hef1 : event_from_updates s1 (classifyAJ t2) (classifyDJ t0 t2 reasonv hv vv av) =
      (match process_event_data (classifyDJ t0 t2 reasonv hv vv av) with
       | .error e =>
         ({ s1 with event_state_machine :=
            s1.event_state_machine.add (.vstr t2) (classifyDJ t0 t2 reasonv hv vv av) },
          Except.error e)
       | .ok processed =>
         ({ s1 with event_state_machine :=
            s1.event_state_machine.add (.vstr t2) (classifyDJ t0 t2 reasonv hv vv av) },
          .ok ((.vstr t2 : PVal), processed))) := rfl
  rw [hpd] at hef1
  dsimp only at hef1
  unfold process_event_updates
  rw [hef1]
  dsimp only
  unfold fire_event update_device
  dsimp only
  rw [pmGet?_pmSetdefaultUpdate_self _ _ _ (pyKeyEq_vstr_refl t2)]
  refine ⟨_, rfl, ?_⟩
  dsimp only [Option.getD]
  rw [dget?_dmerge_right _ _ _ (by simp [dkeys]) (by simp [dkeys])]
  rfl

/-- C3 (amended): on a `CLASSIFY` line carrying three label/score pairs
and a valid timestamp, the pipeline emits exactly one subscriber
notification whose record's `event_object` is derived from the scores
compared as strings (Python compares the un-converted tokens
lexicographically): "Animal"/"Vehicle"/"Human" when the corresponding
score is strictly greatest in that ordering, and "None" when no score is
strictly greatest (ties derive no category). -/
theorem classify_dominant_category_lexicographic (s : St) (now : Int)
    (t0 t1 t2 l1 hs l2 vs l3 asc : String) (rest : List String)
    (hts : strptimeValid t0 = true) :
    ∃ snap,
      (process_tokens s now t0 t1 t2 "CLASSIFY" ([l1, hs, l2, vs, l3, asc] ++ rest)).2 =
        .ok [(.vstr t2, snap)] ∧
      dget? snap "event_object" = some (.vstr
        (if pyStrLtB hs asc && pyStrLtB vs asc then "Animal"
         else if pyStrLtB hs vs && pyStrLtB asc vs then "Vehicle"
         else if pyStrLtB vs hs && pyStrLtB asc hs then "Human"
         else "None")) := by
  have ht0 : t0 ≠ "" := by
    intro h
    rw [h] at hts
    exact absurd hts (by decide)
  have hbranch : process_tokens s now t0 t1 t2 "CLASSIFY" ([l1, hs, l2, vs, l3, asc] ++ rest) =
      (match classifyObject PVal.vnone (.vstr hs) (.vstr vs) (.vstr asc) with
       | (obj2, err) =>
         match err with
         | some e =>
           ({ s with
              global_event_score_human := PVal.vstr hs
              global_event_score_vehicle := PVal.vstr vs
              global_event_score_animal := PVal.vstr asc
              global_event_object := obj2 }, .error e)
         | none => process_event_updates
             { s with
               global_event_score_human := PVal.vstr hs
               global_event_score_vehicle := PVal.vstr vs
               global_event_score_animal := PVal.vstr asc
               global_event_object := obj2 }
             (classifyAJ t2)
             (classifyDJ t0 t2 obj2 (.vstr hs) (.vstr vs) (.vstr asc))) := rfl
  rw [classifyObject_vstr] at hbranch
  dsimp only at hbranch
  obtain ⟨snap, hsnap, hfield⟩ := process_event_updates_classify
    { s with
      global_event_score_human := PVal.vstr hs
      global_event_score_vehicle := PVal.vstr vs
      global_event_score_animal := PVal.vstr asc
      global_event_object :=
        (if pyStrLtB hs asc && pyStrLtB vs asc then PVal.vstr "512"
         else if pyStrLtB hs vs && pyStrLtB asc vs then PVal.vstr "256"
         else if pyStrLtB vs hs && pyStrLtB asc hs then PVal.vstr "128"
         else PVal.vnone) }
    t0 t2
    (if pyStrLtB hs asc && pyStrLtB vs asc then PVal.vstr "512"
     else if pyStrLtB hs vs && pyStrLtB asc vs then PVal.vstr "256"
     else if pyStrLtB vs hs && pyStrLtB asc hs then PVal.vstr "128"
     else PVal.vnone)
    (.vstr hs) (.vstr vs) (.vstr asc) hts ht0
  refine ⟨snap, ?_, ?_⟩
  · rw [hbranch]
    exact hsnap
  · rw [hfield]
    cases hb3 : (pyStrLtB hs asc && pyStrLtB vs asc) <;>
      cases hb2 : (pyStrLtB hs vs && pyStrLtB asc vs) <;>
        cases hb1 : (pyStrLtB vs hs && pyStrLtB asc hs) <;>
          simp [REASON_CODES_get, hb3, hb2, hb1]

/-- Witness for the amended C3 at the spec's own example scores
(human=30, vehicle=95, animal=10): the emitted record's `event_object`
is "Vehicle". -/
theorem classify_dominant_category_lexicographic_witness :
    strptimeValid "20190927092026" = true ∧
    (∃ snap,
      (process_tokens (St.init ⟨"h", 8000, "tok"⟩) 100 "20190927092026" "1" "3" "CLASSIFY"
        (["HUMAN", "30", "VEHICLE", "95", "ANIMAL", "10"] ++ [])).2 =
        .ok [(.vstr "3", snap)] ∧
      dget? snap "event_object" = some (.vstr "Vehicle")) :=
  ⟨by decide,
    classify_dominant_category_lexicographic (St.init ⟨"h", 8000, "tok"⟩) 100
      "20190927092026" "1" "3" "HUMAN" "30" "VEHICLE" "95" "ANIMAL" "10" [] (by decide)⟩

set_option maxRecDepth 4000 in
/-- C3 counterexample: the spec's tie example (human=50, vehicle=50, two
pairs only) does not resolve `event_object` to "Human": the internal
comparison of the string score "50" with the reset `int` animal score
raises `TypeError`, the line is dropped, no event record is created and no
subscriber fires. -/
theorem classify_tie_counterexample :
    (process_message (St.init ⟨"h", 8000, "tok"⟩) 100
      "20190927092026 1 3 CLASSIFY HUMAN 50 VEHICLE 50").2 = [] ∧
    (process_message (St.init ⟨"h", 8000, "tok"⟩) 100
      "20190927092026 1 3 CLASSIFY HUMAN 50 VEHICLE 50").1.processed_data = [] ∧
    (process_message (St.init ⟨"h", 8000, "tok"⟩) 100
      "20190927092026 1 3 CLASSIFY HUMAN 50 VEHICLE 50").1.event_state_machine =
      SecspyEventStateMachine.init :=
  ⟨rfl, rfl, rfl⟩


/-! C4: return value of `update`. -/

/-- C4 (amended): the value `update` returns is characterised exactly: it is
the processed-data snapshot when a device poll occurred this tick (forced, or
the device-update interval elapsed) AND the websocket task is active or the
websocket check ran this tick; the empty dict when no poll occurred but that
websocket condition holds; and None when the websocket condition fails — so a
poll tick can also return None, contradicting the claim that the only two
outcomes are the snapshot and the empty dict. -/
theorem update_return_value_characterised (s : St) (now : Int) (force : Bool)
    (poll : PollData) (attach : Bool) (s1 : St) (v : Option PMap)
    (h : St.update s now force poll attach = (s1, .ok v)) :
    v = (if s1.ws_task = true ∨ s1.last_websocket_check = now then
          some (if force = true ∨ now - DEVICE_UPDATE_INTERVAL_SECONDS >
              s.last_device_update_time then s1.processed_data else [])
         else none) := by
  unfold St.update at h
  dsimp only at h
  split at h
  · cases h
  · split at h
    · split at h
      · rename_i hpos
        injection h with h1 h2
        subst h1
        injection h2 with h3
        subst h3
        simp only [Bool.or_eq_true, decide_eq_true_eq] at hpos
        rw [if_pos hpos]
        simp only [Bool.or_eq_true, decide_eq_true_eq]
      · rename_i hneg
        injection h with h1 h2
        subst h1
        injection h2 with h3
        subst h3
        simp only [Bool.or_eq_true, decide_eq_true_eq] at hneg
        rw [if_neg hneg]
    · split at h
      · rename_i hpos
        injection h with h1 h2
        subst h1
        injection h2 with h3
        subst h3
        simp only [Bool.or_eq_true, decide_eq_true_eq] at hpos
        rw [if_pos hpos]
        simp only [Bool.or_eq_true, decide_eq_true_eq]
      · rename_i hneg
        injection h with h1 h2
        subst h1
        injection h2 with h3
        subst h3
        simp only [Bool.or_eq_true, decide_eq_true_eq] at hneg
        rw [if_neg hneg]

/-- C4 counterexample: in a state with a recent websocket check and no
websocket task, a forced poll makes `update` return None, not the snapshot
and not the empty dict. -/
theorem update_returns_none_counterexample :
    (St.update c4s 110 true pollEmpty false).2 = .ok none ∧
    (∀ m : PMap,
      (Except.ok (none : Option PMap) : Except PyErr (Option PMap)) ≠ .ok (some m)) :=
  ⟨rfl, fun m h => by cases h⟩

theorem update_return_value_characterised_witness :
    St.update c4s 110 true pollEmpty false =
      ((St.update c4s 110 true pollEmpty false).1, .ok (none : Option PMap)) ∧
    (none : Option PMap) =
      (if (St.update c4s 110 true pollEmpty false).1.ws_task = true ∨
          (St.update c4s 110 true pollEmpty false).1.last_websocket_check = 110 then
        some (if true = true ∨ (110 : Int) - DEVICE_UPDATE_INTERVAL_SECONDS >
            c4s.last_device_update_time then
          (St.update c4s 110 true pollEmpty false).1.processed_data else [])
       else none) :=
  ⟨rfl, update_return_value_characterised c4s 110 true pollEmpty false _ none rfl⟩

/-! C1: polls and stream-set motion fields. -/

/-- A poll-derived camera record carries none of the motion fields when
`include_events` is false. -/
theorem process_camera_data_noevents_motion_keys (sid : Option PVal) (cred : Credentials)
    (cam : PDict) (now : Int) (u : PDict) (k : String)
    (hk : k = "event_on" ∨ k = "event_length" ∨ k = "last_motion")
    (h : process_camera_data sid cred cam false now = .ok u) :
    dget? u k = none := by
  unfold process_camera_data at h
  dsimp only at h
  simp only [Bool.false_eq_true, if_false] at h
  repeat' split at h
  all_goals try cases h
  all_goals rcases hk with rfl | rfl | rfl
  all_goals rfl

/-- A key absent from a dict is not among its keys. -/
theorem dget?_ne_none_of_mem (d : PDict) (k : String) (hnone : dget? d k = none) :
    ¬ k ∈ dkeys d := by
  intro hmem
  obtain ⟨v, hv⟩ := dget?_isSome_of_mem d k hmem
  rw [hv] at hnone
  cases hnone

/-- Folding poll records over the ledger touches no motion field once the
first update is done. -/
theorem process_cameras_go_preserves (now : Int) (sid : PVal) (cams : List PDict) :
    ∀ (s : St), s.is_first_update = false →
    ∀ (id : PVal) (k : String), (k = "event_on" ∨ k = "event_length" ∨ k = "last_motion") →
    fieldAt (process_cameras_go s now sid false cams).1.processed_data id k =
      fieldAt s.processed_data id k := by
  induction cams with
  | nil =>
    intro s _ id k _
    rfl
  | cons cam rest ih =>
    intro s hf id k hk
    unfold process_cameras_go
    dsimp only
    simp only [hf, Bool.false_eq_true, if_false, Bool.false_or]
    cases hnum : dgetE cam "number" with
    | error e => rfl
    | ok cid =>
      dsimp only
      cases hpc : process_camera_data (some sid) s.server_credential cam false now with
      | error e => rfl
      | ok upd =>
        dsimp only
        exact Eq.trans (ih _ rfl id k hk)
          (fieldAt_pmSetdefaultUpdate_of_absent s.processed_data cid upd k
            (dget?_ne_none_of_mem _ _
              (process_camera_data_noevents_motion_keys _ _ _ _ _ _ hk hpc)) id)

/-- `start_listening` never changes the projected data. -/
theorem start_listening_processed_data (x : St) (a : Bool) :
    (start_listening x a).processed_data = x.processed_data := by
  unfold start_listening
  split
  · rfl
  · split <;> rfl

/-- C1 (amended): once the state is past its first update, a poll performed by
`update` (a forced poll included) leaves the fields `event_on`, `event_length`
and `last_motion` of every projected camera record unchanged; the stream-active
hypothesis `ws_task = true` is the claim situation, though the proof shows the
first-update flag, not the stream flag, is what gates the motion-field fold. -/
theorem poll_with_stream_active_preserves_motion_fields
    (s : St) (now : Int) (force : Bool) (poll : PollData) (attach : Bool)
    (hws : s.ws_task = true) (hfirst : s.is_first_update = false)
    (id : PVal) (k : String)
    (hk : k = "event_on" ∨ k = "event_length" ∨ k = "last_motion") :
    fieldAt (St.update s now force poll attach).1.processed_data id k =
      fieldAt s.processed_data id k := by
  have hgd : fieldAt (get_devices s now poll false).1.processed_data id k =
      fieldAt s.processed_data id k := by
    unfold get_devices process_cameras
    dsimp only
    have hgo := process_cameras_go_preserves now poll.serverUuid poll.cameras s hfirst id k hk
    rcases hpc : process_cameras_go s now poll.serverUuid false poll.cameras with ⟨s1, r⟩
    rw [hpc] at hgo
    cases r with
    | error e => exact hgo
    | ok u => exact hgo
  unfold St.update
  dsimp only
  rw [hws]
  simp only [Bool.not_true]
  rcases hg : get_devices s now poll false with ⟨sg, rg⟩
  rw [hg] at hgd
  dsimp only at hgd
  cases rg with
  | error e =>
    dsimp only
    split
    · rename_i s1 e1 heq
      split at heq
      · injection heq with h1 h2
        subst h1
        exact hgd
      · injection heq with h1 h2
        exact Except.noConfusion h2
    · rename_i s1 heq
      split at heq
      · injection heq with h1 h2
        exact Except.noConfusion h2
      · injection heq with h1 h2
        subst h1
        try dsimp only
        repeat' split
        all_goals simp only [start_listening_processed_data]
  | ok u =>
    dsimp only
    split
    · rename_i s1 e1 heq
      split at heq
      · injection heq with h1 h2
        exact Except.noConfusion h2
      · injection heq with h1 h2
        exact Except.noConfusion h2
    · rename_i s1 heq
      split at heq
      · injection heq with h1 h2
        subst h1
        try dsimp only
        repeat' split
        all_goals try simp only [start_listening_processed_data]
        all_goals exact hgd
      · injection heq with h1 h2
        subst h1
        try dsimp only
        repeat' split
        all_goals simp only [start_listening_processed_data]

set_option maxRecDepth 4000 in
/-- C1 counterexample part: with the event stream active (`ws_task = true`) but the
state still in its first update, a poll overwrites `event_on` (true → false) and
`last_motion` (timestamp → None) for a camera with a live motion event. -/
theorem poll_first_update_overwrites_motion_counterexample :
    sWs.ws_task = true ∧
    fieldAt sWs.processed_data (.vstr "3") "event_on" = some (.vbool true) ∧
    fieldAt (St.update sWs 1000 true ⟨.vstr "uuid1", [camPoll]⟩ false).1.processed_data
      (.vstr "3") "event_on" = some (.vbool false) ∧
    fieldAt (St.update sWs 1000 true ⟨.vstr "uuid1", [camPoll]⟩ false).1.processed_data
      (.vstr "3") "last_motion" = some .vnone :=
  ⟨rfl, rfl, rfl, rfl⟩

set_option maxRecDepth 4000 in
theorem poll_with_stream_active_preserves_motion_fields_witness :
    ({ sWs with is_first_update := false } : St).ws_task = true ∧
    fieldAt (St.update { sWs with is_first_update := false } 1000 true
        ⟨.vstr "uuid1", [camPoll]⟩ false).1.processed_data (.vstr "3") "event_on" =
      fieldAt ({ sWs with is_first_update := false } : St).processed_data
        (.vstr "3") "event_on" :=
  ⟨rfl, poll_with_stream_active_preserves_motion_fields _ 1000 true
    ⟨.vstr "uuid1", [camPoll]⟩ false rfl rfl (.vstr "3") "event_on" (Or.inl rfl)⟩

end Pysecspy
